import Mathlib

/-
Formal model of the `tinyagent` library (github.com/y-lan/tinyagent), a
minimal multi-provider LLM agent framework.  Python sources are embedded
shallowly: pure functions become Lean functions, stateful code becomes
explicit state passing, exceptions become `Except`, and the deterministic
HTTP provider is modelled as a script (a list of responses consumed in
order).  File layout: embedded definitions first, then the theorems that
settle each specification claim.
-/

set_option autoImplicit false

namespace Tinyagent

/-! ## Basic schema (src/tinyagent/schema.py) -/

/-- `Role` enum from src/tinyagent/schema.py. -/
inductive Role where
  | user
  | assistant
  | system
  | tool
deriving Repr, DecidableEq

/-- `TokenUsage` from src/tinyagent/schema.py: running totals of prompt and
completion tokens. -/
structure TokenUsage where
  prompt : Nat
  completion : Nat
deriving Repr, DecidableEq

/-- `TokenUsage.update` (src/tinyagent/schema.py:132) in the form used by the
finish-chat closure: both counters grow by the round's counts. -/
def TokenUsage.update (t u : TokenUsage) : TokenUsage :=
  { prompt := t.prompt + u.prompt, completion := t.completion + u.completion }

/-! ## Tool signature builder (src/tinyagent/tools/tool.py) -/

/-- A Python type annotation as seen by `inspect.signature`.  `empty` stands
for `inspect._empty` (no annotation), `custom` for any class outside the
builtin ones listed in `TYPE_MAP`. -/
inductive PyType where
  | int
  | float
  | str
  | bool
  | list
  | dict
  | tuple
  | set
  | frozenset
  | noneType
  | empty
  | custom (name : String)
deriving Repr, DecidableEq

/-- Printable name of a `PyType`, used in the `Unsupported type` message
(Python interpolates the class object itself). -/
def PyType.show : PyType → String
  | .int => "int"
  | .float => "float"
  | .str => "str"
  | .bool => "bool"
  | .list => "list"
  | .dict => "dict"
  | .tuple => "tuple"
  | .set => "set"
  | .frozenset => "frozenset"
  | .noneType => "NoneType"
  | .empty => "empty"
  | .custom n => n

/-- `TYPE_MAP` from src/tinyagent/tools/tool.py:4: the fixed primitive set of
supported parameter annotations and their JSON-schema type names.  Types not
in the map (including a missing annotation) are unsupported. -/
def TYPE_MAP : PyType → Option String
  | .int => some "number"
  | .float => some "number"
  | .str => some "string"
  | .bool => some "boolean"
  | .list => some "list"
  | .dict => some "object"
  | .tuple => some "object"
  | .set => some "object"
  | .frozenset => some "object"
  | .noneType => some "null"
  | .empty => none
  | .custom _ => none

/-- One parameter of a tool's `_run` method as reported by
`inspect.signature`: its name, annotation and whether it has a default. -/
structure PyParam where
  name : String
  annot : PyType
  hasDefault : Bool
deriving Repr, DecidableEq

/-- The `model_json_schema()` output of a declared `args_schema`:
`properties` (name, JSON type) and the `required` name list. -/
structure JsonSchemaDoc where
  properties : List (String × String)
  required : List String
deriving Repr, DecidableEq

/-- A `Tool` (src/tinyagent/schema.py:155) as consumed by
`build_function_signature`: name, description, optional declared argument
schema, and the introspected parameters of its `_run` method. -/
structure PyTool where
  name : String
  description : String
  args_schema : Option JsonSchemaDoc
  runParams : List PyParam
deriving Repr, DecidableEq

/-- The `parameters` object of a produced function signature. -/
structure FunctionParameters where
  type : String
  properties : List (String × String)
  required : List String
deriving Repr, DecidableEq

/-- The `function` object of a produced signature document. -/
structure FunctionSignature where
  name : String
  description : String
  parameters : FunctionParameters
deriving Repr, DecidableEq

/-- The full return value of `build_function_signature`:
`{"type": "function", "function": ...}`. -/
structure ToolSignature where
  type : String
  function : FunctionSignature
deriving Repr, DecidableEq

/-- The introspection loop of `build_function_signature`
(src/tinyagent/tools/tool.py:41): walk the `_run` parameters in order,
mapping each annotation through `TYPE_MAP` (the failed `assert` on an
unmapped annotation becomes `Except.error`), and collect a parameter into
`required` exactly when it has no default.  The source's `exclude_params`
check compares `inspect.Parameter` objects against strings and therefore
never excludes anything, so it is not modelled. -/
def buildIntrospectedParams : List PyParam → Except String (List (String × String) × List String)
  | [] => .ok ([], [])
  | p :: ps =>
    match TYPE_MAP p.annot with
    | none => .error ("Unsupported type: " ++ p.annot.show ++
        " for auto-generation of function signature")
    | some ty =>
      match buildIntrospectedParams ps with
      | .error e => .error e
      | .ok (props, req) =>
        .ok ((p.name, ty) :: props, if p.hasDefault then req else p.name :: req)

/-- `build_function_signature` (src/tinyagent/tools/tool.py:18): with a
declared `args_schema`, `properties`/`required` are copied from its JSON
schema; otherwise they are produced by introspecting `_run`. -/
def build_function_signature (t : PyTool) : Except String ToolSignature :=
  match t.args_schema with
  | some s =>
    .ok { type := "function"
          function :=
            { name := t.name
              description := t.description
              parameters :=
                { type := "object", properties := s.properties, required := s.required } } }
  | none =>
    match buildIntrospectedParams t.runParams with
    | .error e => .error e
    | .ok (props, req) =>
      .ok { type := "function"
            function :=
              { name := t.name
                description := t.description
                parameters := { type := "object", properties := props, required := req } } }

/-! ## Agent configuration (src/tinyagent/schema.py `BaseConfig`) -/

/-- The closed set of named options of `BaseConfig`
(src/tinyagent/schema.py:10). -/
def baseConfigFields : List String :=
  ["model_name", "system_prompt", "temperature", "top_p", "seed", "max_tokens",
   "json_output", "enable_history", "max_retry", "timeout", "stream",
   "enable_magic_placeholders", "verbose", "execute_tools", "use_tools"]

/-- Modelled from the spec: pydantic `BaseModel` validation with
`extra="forbid"` (declared via `model_config = ConfigDict(extra="forbid")`
in src/tinyagent/schema.py:33; the validation itself lives in the pydantic
library, not in this repository).  Construction with a keyword outside the
closed field set fails with a validation error naming the offending key;
otherwise it succeeds. -/
def validateConfigKeys (kwargs : List String) : Except String Unit :=
  match kwargs.find? (fun k => !(baseConfigFields.contains k)) with
  | some k => .error ("Extra inputs are not permitted: " ++ k)
  | none => .ok ()

/-! ## Python `str.format` (used by `BaseAgent.chat`, src/tinyagent/base.py:158) -/

/-- The `\x7b` character. -/
def lbrace : Char := '\x7b'

/-- The `\x7d` character. -/
def rbrace : Char := '\x7d'

/-- Modelled from Python's `str.format` semantics, restricted to the plain
named placeholders the agent uses: outside a field, doubled braces escape to
a literal brace and a single closing brace is an error; inside a field the
name is accumulated until the closing brace and looked up among the keyword
arguments, a missing name being an error (Python raises `KeyError`, or
`IndexError` for a positional field).  Conversion/format specs are not
modelled.  The first argument is `some acc` while scanning a field. -/
def pyFormatAux (kwargs : List (String × String)) :
    Option (List Char) → List Char → Except String (List Char)
  | none, [] => .ok []
  | some _, [] => .error "Single brace encountered in format string"
  | none, c :: cs =>
    if c = lbrace then
      match cs with
      | [] => .error "Single brace encountered in format string"
      | c2 :: cs2 =>
        if c2 = lbrace then (pyFormatAux kwargs none cs2).map (lbrace :: ·)
        else pyFormatAux kwargs (some []) (c2 :: cs2)
    else if c = rbrace then
      match cs with
      | [] => .error "Single brace encountered in format string"
      | c2 :: cs2 =>
        if c2 = rbrace then (pyFormatAux kwargs none cs2).map (rbrace :: ·)
        else .error "Single brace encountered in format string"
    else (pyFormatAux kwargs none cs).map (c :: ·)
  | some acc, c :: cs =>
    if c = rbrace then
      match kwargs.lookup (String.mk acc) with
      | some v => (pyFormatAux kwargs none cs).map (v.data ++ ·)
      | none => .error ("KeyError: " ++ String.mk acc)
    else pyFormatAux kwargs (some (acc ++ [c])) cs
termination_by _ l => l.length

/-- `user_input.format(**kwargs)`. -/
def pyFormat (s : String) (kwargs : List (String × String)) : Except String String :=
  (pyFormatAux kwargs none s.data).map String.mk

/-- The first statement of `BaseAgent.chat` (src/tinyagent/base.py:157):
`if kwargs: user_input = user_input.format(**kwargs)` — formatting is
applied only when at least one extra keyword argument was passed. -/
def chatFormatUserInput (kwargs : List (String × String)) (userInput : String) :
    Except String String :=
  if kwargs.isEmpty then .ok userInput else pyFormat userInput kwargs

/-- A character list mentioning no brace, so `str.format` copies it
verbatim. -/
def BraceFree (l : List Char) : Prop := lbrace ∉ l ∧ rbrace ∉ l

instance (l : List Char) : Decidable (BraceFree l) := by
  unfold BraceFree; infer_instance

/-! ## JSON values and a mini `json.loads`

Tool-call arguments travel as JSON strings (`FunctionCall.arguments`,
src/tinyagent/schema.py:67) and are decoded with `json.loads`.  The decoder
is modelled for the flat objects the tools consume: string, integer,
boolean and null values, no nesting, no string escapes. -/

/-- A JSON scalar value. -/
inductive JVal where
  | jstr (s : String)
  | jnum (n : Int)
  | jbool (b : Bool)
  | jnull
deriving Repr, DecidableEq

/-- A decoded JSON object: the keyword arguments passed to a tool. -/
abbrev ArgsDict := List (String × JVal)

/-- JSON whitespace. -/
def isJsonWs (c : Char) : Bool :=
  c = ' ' || c = '\n' || c = '\t' || c = '\r'

/-- Drop leading JSON whitespace. -/
def skipWs (l : List Char) : List Char := l.dropWhile isJsonWs

/-- Parse a JSON string literal without escapes. -/
def parseJsonString : List Char → Option (String × List Char)
  | '"' :: rest =>
    let content := rest.takeWhile (· ≠ '"')
    match rest.dropWhile (· ≠ '"') with
    | '"' :: rest3 =>
      if content.contains '\\' then none else some (String.mk content, rest3)
    | _ => none
  | _ => none

/-- Digits to a natural number. -/
def digitsToNat (ds : List Char) : Nat :=
  ds.foldl (fun acc c => acc * 10 + (c.toNat - 48)) 0

/-- Parse a decimal natural number. -/
def parseJsonNat (l : List Char) : Option (Nat × List Char) :=
  let ds := l.takeWhile Char.isDigit
  if ds.isEmpty then none else some (digitsToNat ds, l.dropWhile Char.isDigit)

/-- Parse a JSON integer. -/
def parseJsonNumber : List Char → Option (Int × List Char)
  | '-' :: rest => (parseJsonNat rest).map (fun p => (-(p.1 : Int), p.2))
  | l => (parseJsonNat l).map (fun p => ((p.1 : Int), p.2))

/-- Parse a JSON scalar value. -/
def parseJsonValue (l : List Char) : Option (JVal × List Char) :=
  match parseJsonString l with
  | some (s, r) => some (.jstr s, r)
  | none =>
    if l.take 4 = "true".data then some (.jbool true, l.drop 4)
    else if l.take 5 = "false".data then some (.jbool false, l.drop 5)
    else if l.take 4 = "null".data then some (.jnull, l.drop 4)
    else (parseJsonNumber l).map (fun p => (.jnum p.1, p.2))

/-- Parse the members of a JSON object after its opening brace. -/
def parseJsonMembers : Nat → List Char → Option (ArgsDict × List Char)
  | 0, _ => none
  | fuel + 1, l =>
    match parseJsonString (skipWs l) with
    | none => none
    | some (k, r1) =>
      match skipWs r1 with
      | ':' :: r2 =>
        match parseJsonValue (skipWs r2) with
        | none => none
        | some (v, r3) =>
          match skipWs r3 with
          | ',' :: r4 => (parseJsonMembers fuel r4).map (fun p => ((k, v) :: p.1, p.2))
          | c :: r4 => if c = rbrace then some ([(k, v)], r4) else none
          | [] => none
      | _ => none

/-- `json.loads` on the modelled subset: a single flat object. -/
def jsonLoads (s : String) : Option ArgsDict :=
  match skipWs s.data with
  | c :: rest =>
    if c = lbrace then
      match skipWs rest with
      | d :: rest2 =>
        if d = rbrace then (if (skipWs rest2).isEmpty then some [] else none)
        else
          (parseJsonMembers (s.data.length + 1) rest).bind
            (fun p => if (skipWs p.2).isEmpty then some p.1 else none)
      | [] => none
    else none
  | [] => none

/-! ## Tools at runtime -/

/-- A registered tool as the agent sees it: a name and a `run` operation.
`run` returning `Except.error e` models `tool.run(**args)` raising an
exception whose text is `e`. -/
structure RTool where
  name : String
  run : ArgsDict → Except String String

/-- The agent's tool registry lookup `self.tools[name]` (the registry is a
dict built from the tool list in `BaseAgent.__init__`,
src/tinyagent/base.py:47). -/
def lookupTool (tools : List RTool) (name : String) : Option RTool :=
  tools.find? (fun t => t.name = name)

/-- `BaseAgent.run_tool` (src/tinyagent/base.py:94): the registry lookup
`self.tools[tool_name]` sits outside the `try`, so a missing tool raises
`KeyError`; any exception from `tool.run(**args)` is caught and converted
into the string `"Error: {e}"`, which is returned as the tool result. -/
def run_tool (tools : List RTool) (toolName : String) (args : ArgsDict) :
    Except String String :=
  match lookupTool tools toolName with
  | none => .error ("KeyError: " ++ toolName)
  | some t =>
    match t.run args with
    | .ok r => .ok r
    | .error e => .ok ("Error: " ++ e)

/-! ## OpenAI-style messages and responses (src/tinyagent/llm/gpt/agent.py) -/

/-- `FunctionCall` (src/tinyagent/schema.py:67): `arguments` is a JSON
string. -/
structure FunctionCall where
  name : String
  arguments : String
deriving Repr, DecidableEq

/-- `ToolUseContent` (src/tinyagent/schema.py:77). -/
structure ToolUseContent where
  index : Nat
  id : String
  function : FunctionCall
deriving Repr, DecidableEq

/-- A content block of a canonical `Message` (src/tinyagent/schema.py):
text, image, or (in Gemini-normalized messages) an embedded tool-use
block. -/
inductive ContentBlock where
  | text (text : String)
  | image (url : String)
  | toolUse (c : ToolUseContent)
deriving Repr, DecidableEq

/-- `Message` (src/tinyagent/schema.py:88): `content` is `None` exactly for
assistant messages that only carry `tool_calls`. -/
structure GptMessage where
  role : Role
  content : Option (List ContentBlock)
  tool_calls : Option (List ToolUseContent)
deriving Repr, DecidableEq

/-- `Message.from_text` (src/tinyagent/schema.py:93). -/
def gptTextMessage (role : Role) (text : String) : GptMessage :=
  { role := role, content := some [.text text], tool_calls := none }

/-- An element of the request message list of the OpenAI-style agent.
Modelled from the spec: `ToolUseResultMessage` is imported from
`tinyagent.schema` by src/tinyagent/llm/gpt/agent.py and
src/tinyagent/llm/gemini/agent.py but its definition is absent from the
sources; per the spec's tool-result block ("tool-result (tool-use id
reference, string result)") and the constructor calls at
src/tinyagent/llm/gpt/agent.py:200, it carries the tool call id, the tool
name and the string result. -/
inductive GptRequestMessage where
  | msg (m : GptMessage)
  | toolUseResult (tool_call_id : String) (name : String) (content : String)
deriving Repr, DecidableEq

/-- `ChatResponse` (src/tinyagent/schema.py:141) specialized to the
OpenAI-style agent. -/
structure GptChatResponse where
  message : GptMessage
  usage : TokenUsage
  model : String
  finish_reason : String
  input_message : Option GptRequestMessage
deriving Repr, DecidableEq

/-- One entry of `tool_result_content` in `GPTAgent._process_chat`. -/
structure ToolResultEntry where
  tool_call_id : String
  name : String
  content : String
deriving Repr, DecidableEq

/-- The tool-execution loop of `GPTAgent._process_chat`
(src/tinyagent/llm/gpt/agent.py:179): each tool call's JSON arguments are
decoded (`json.JSONDecodeError` is caught and becomes an `"Error: Invalid
JSON..."` result) and the tool is run through `BaseAgent.run_tool`; an
error escaping `run_tool` (a missing tool) propagates. -/
def gptExecuteToolCalls (tools : List RTool) :
    List ToolUseContent → Except String (List ToolResultEntry)
  | [] => .ok []
  | c :: cs =>
    let res : Except String String :=
      match jsonLoads c.function.arguments with
      | none => .ok ("Error: Invalid JSON in tool arguments: " ++ c.function.arguments)
      | some args => run_tool tools c.function.name args
    match res with
    | .error e => .error e
    | .ok r =>
      (gptExecuteToolCalls tools cs).map
        (fun rest => { tool_call_id := c.id, name := c.function.name, content := r } :: rest)

/-- `GPTAgent._process_chat` (src/tinyagent/llm/gpt/agent.py:174) with
`_client_chat` abstracted into a script of assembled responses consumed one
per provider request.  Whenever a response carries (truthy) `tool_calls`,
the tools are executed, the assistant tool-call message and one tool-result
message per call are appended, and the method calls itself again on the
remaining script — there is no bound on the number of rounds.  Returns the
final response together with the number of provider requests issued; an
exhausted script models the transport layer failing. -/
def gptProcessChat (tools : List RTool) (messages : List (Option GptRequestMessage)) :
    List GptChatResponse → Except String GptChatResponse × Nat
  | [] => (.error "no provider response", 0)
  | r :: rest =>
    match r.message.tool_calls with
    | some (c :: cs) =>
      match gptExecuteToolCalls tools (c :: cs) with
      | .error e => (.error e, 1)
      | .ok results =>
        let messages' := messages ++ [some (.msg r.message)] ++
          results.map (fun t => some (GptRequestMessage.toolUseResult t.tool_call_id t.name t.content))
        let (res, n) := gptProcessChat tools messages' rest
        (res, n + 1)
    | _ => (.ok r, 1)

/-! ## Anthropic-style messages and responses (src/tinyagent/llm/claude/agent.py) -/

/-- A content block of a Claude-side message
(src/tinyagent/llm/claude/schema.py): text, image, tool use (with decoded
input dict) or tool result. -/
inductive ClaudeContent where
  | text (text : String)
  | image (source : String)
  | toolUse (id : String) (name : String) (input : ArgsDict)
  | toolResult (tool_use_id : String) (content : String)
deriving Repr, DecidableEq

/-- A message in the Anthropic-style agent's request list. -/
structure ClaudeMessage where
  role : Role
  content : List ClaudeContent
deriving Repr, DecidableEq

/-- A content block of a raw (wire) Anthropic response; `other` carries an
unrecognized `type` tag. -/
inductive ClaudeRawContent where
  | text (text : String)
  | image (source : String)
  | toolUse (id : String) (name : String) (input : ArgsDict)
  | other (type : String)
deriving Repr, DecidableEq

/-- A raw non-streaming Anthropic response body (the dict returned by
`AnthropicClient.api_request`). -/
structure ClaudeRaw where
  content : List ClaudeRawContent
  model : String
  input_tokens : Nat
  output_tokens : Nat
deriving Repr, DecidableEq

/-- `_parse_claude_content` (src/tinyagent/llm/claude/agent.py:52): an
unsupported tag raises `Unsupported content type`. -/
def parseClaudeContent : ClaudeRawContent → Except String ClaudeContent
  | .text t => .ok (.text t)
  | .image s => .ok (.image s)
  | .toolUse id name input => .ok (.toolUse id name input)
  | .other ty => .error ("Unsupported content type: " ++ ty)

/-- `ChatResponse` specialized to the Anthropic-style agent. -/
structure ClaudeChatResponse where
  message : ClaudeMessage
  usage : TokenUsage
  model : String
  finish_reason : String
  input_message : Option ClaudeMessage
deriving Repr, DecidableEq

/-- `_assemble_chat_response` (src/tinyagent/llm/claude/agent.py:37). -/
def assembleClaudeChatResponse (raw : ClaudeRaw) : Except String ClaudeChatResponse :=
  match raw.content.mapM parseClaudeContent with
  | .error e => .error e
  | .ok content =>
    .ok { message := { role := .assistant, content := content }
          usage := { prompt := raw.input_tokens, completion := raw.output_tokens }
          model := raw.model
          finish_reason := "completed"
          input_message := none }

/-- Python truthiness of the optional `prefill_response` string. -/
def optStrTruthy : Option String → Bool
  | some s => !s.isEmpty
  | none => false

/-- The non-streaming prefill patch in `ClaudeAgent._client_chat`
(src/tinyagent/llm/claude/agent.py:174): `message["content"][0]["text"] =
prefill_response + message["content"][0]["text"]`; reading `"text"` on a
first block that is not a text block raises `KeyError`. -/
def applyPrefill (p : String) (raw : ClaudeRaw) : Except String ClaudeRaw :=
  match raw.content with
  | .text t :: rest => .ok { raw with content := .text (p ++ t) :: rest }
  | _ => .error "KeyError: text"

/-- The tool-execution loop of `ClaudeAgent._client_chat`
(src/tinyagent/llm/claude/agent.py:181): the registry is indexed directly
(`self.tools[content.name]`, `KeyError` on a missing tool) and `tool.run`
is called with no `try`/`except`, so an exception from the tool
propagates. -/
def claudeExecuteTools (tools : List RTool) :
    List ClaudeContent → Except String (List ClaudeContent)
  | [] => .ok []
  | .toolUse id name input :: cs =>
    match lookupTool tools name with
    | none => .error ("KeyError: " ++ name)
    | some t =>
      match t.run input with
      | .error e => .error e
      | .ok r => (claudeExecuteTools tools cs).map (fun rest => .toolResult id r :: rest)
  | _ :: cs => claudeExecuteTools tools cs

/-- `ClaudeAgent._client_chat` (src/tinyagent/llm/claude/agent.py:166) on
the non-streaming path, with the provider abstracted into a script of raw
responses.  When any tool-use block is present, the assistant message and a
user message holding the tool results are appended and the method calls
itself again on the remaining script (dropping `prefill_response`, which
defaults to `None` on the recursive call) — with no bound on the number of
rounds.  Returns the response and the number of provider requests.  The
request messages are kept as `Option` values because the live history can
hold `None` entries. -/
def claudeClientChat (tools : List RTool) (messages : List (Option ClaudeMessage))
    (prefill : Option String) :
    List ClaudeRaw → Except String ClaudeChatResponse × Nat
  | [] => (.error "no provider response", 0)
  | raw :: rest =>
    let patched : Except String ClaudeRaw :=
      if optStrTruthy prefill then applyPrefill (prefill.getD "") raw else .ok raw
    match patched with
    | .error e => (.error e, 1)
    | .ok raw' =>
      match assembleClaudeChatResponse raw' with
      | .error e => (.error e, 1)
      | .ok response =>
        match claudeExecuteTools tools response.message.content with
        | .error e => (.error e, 1)
        | .ok results =>
          if results.isEmpty then (.ok response, 1)
          else
            let messages' := messages ++
              [some response.message, some { role := .user, content := results }]
            let (res, n) := claudeClientChat tools messages' none rest
            (res, n + 1)

/-! ## Agent state and the BaseAgent machinery (src/tinyagent/base.py) -/

/-- The slice of `BaseConfig` that the modelled control flow reads.  The
numeric generation parameters (temperature, top_p, seed, max_tokens,
max_retry, timeout) are passed through to the wire without influencing any
modelled branch and are omitted. -/
structure ConfigModel where
  system_prompt : String
  json_output : Bool
  enable_history : Bool
  stream : Bool
  enable_magic_placeholders : Bool
  use_tools : Bool
deriving Repr, DecidableEq

/-- `replace_magic_placeholders` (src/tinyagent/utils.py:10), with the
current date supplied explicitly since it is read from the clock. -/
def replaceMagicPlaceholders (today : String) (prompt : String) : String :=
  prompt.replace "__DATE__" today

/-- `BaseAgent._get_system_msg` (src/tinyagent/base.py:107): an empty (falsy)
system prompt yields no system message. -/
def getSystemMsg (today : String) (cfg : ConfigModel) : Option String :=
  if cfg.system_prompt ≠ "" then
    if cfg.enable_magic_placeholders then
      some (replaceMagicPlaceholders today cfg.system_prompt)
    else some cfg.system_prompt
  else none

/-- The per-agent mutable state owned by a `BaseAgent` instance: the running
token usage and the history list.  History entries are `Option` values
because Python appends `response.input_message`, which is a nullable
field. -/
structure AgentState (Msg : Type) where
  token_usage : TokenUsage
  history : List (Option Msg)
deriving Repr, DecidableEq

/-- The fresh state built in `BaseAgent.__init__`
(src/tinyagent/base.py:53). -/
def initialState (Msg : Type) : AgentState Msg :=
  { token_usage := { prompt := 0, completion := 0 }, history := [] }

/-- The `on_finish_chat` closure installed by `BaseAgent.__init__`
(src/tinyagent/base.py:71): on every finish-chat publish it adds the
response's usage to the running totals and appends the response's
`input_message` and `message` to the history — with no `enable_history`
check. -/
def onFinishChatGpt (st : AgentState GptRequestMessage) (resp : GptChatResponse) :
    AgentState GptRequestMessage :=
  { token_usage := st.token_usage.update resp.usage
    history := st.history ++ [resp.input_message, some (.msg resp.message)] }

/-- The same `on_finish_chat` closure, at the Anthropic-style agent's
message type. -/
def onFinishChatClaude (st : AgentState ClaudeMessage) (resp : ClaudeChatResponse) :
    AgentState ClaudeMessage :=
  { token_usage := st.token_usage.update resp.usage
    history := st.history ++ [resp.input_message, some resp.message] }

/-- `BaseAgent._assemble_request_messages` (src/tinyagent/base.py:131) with
`include_system = True`: optional system message, then the history if and
only if `enable_history` is set, then the new turn. -/
def assembleRequestMessages (today : String) (cfg : ConfigModel)
    (history : List (Option GptRequestMessage)) (messages : List GptRequestMessage) :
    List (Option GptRequestMessage) :=
  (match getSystemMsg today cfg with
    | some s => [some (.msg (gptTextMessage .system s))]
    | none => []) ++
  (if cfg.enable_history then history else []) ++
  messages.map some

/-- `ClaudeAgent._assemble_request_messages`
(src/tinyagent/llm/claude/agent.py:94): no system message in the list (it
travels as a request parameter), history if enabled, then the new turn. -/
def claudeAssembleRequestMessages (cfg : ConfigModel)
    (history : List (Option ClaudeMessage)) (messages : List ClaudeMessage) :
    List (Option ClaudeMessage) :=
  (if cfg.enable_history then history else []) ++ messages.map some

/-- The `input_message` selection in `GPTAgent._chat`
(src/tinyagent/llm/gpt/agent.py:253): `messages[1]` when the assembled list
starts with a system message, else `messages[0]`. -/
def pickGptInputMessage (assembled : List (Option GptRequestMessage)) :
    Option GptRequestMessage :=
  match assembled with
  | [] => none
  | m0 :: rest =>
    let isSystem : Bool :=
      match m0 with
      | some (.msg m) => m.role = .system
      | _ => false
    if isSystem then
      match rest with
      | m1 :: _ => m1
      | [] => none
    else m0

/-- `response.message.content[0].text` as evaluated at
src/tinyagent/base.py:175: `none` models the `IndexError`/`AttributeError`
raised when there is no content or the first block is not text. -/
def gptFirstText (m : GptMessage) : Option String :=
  match m.content with
  | some (.text t :: _) => some t
  | _ => none

/-- `response.message.content[0].text` on a Claude message
(src/tinyagent/llm/claude/agent.py:249). -/
def claudeFirstText (m : ClaudeMessage) : Option String :=
  match m.content with
  | .text t :: _ => some t
  | _ => none

/-- The value returned by a chat call: the full response object or the
extracted text, per `return_complex`. -/
inductive ChatValue (Resp : Type) where
  | complex (r : Resp)
  | text (t : String)
deriving Repr, DecidableEq

/-- Everything observable about one `chat` call: its outcome, the state
after it, the number of provider requests, the number of finish-chat events
published, and the request message list it assembled. -/
structure GptChatCall where
  result : Except String (ChatValue GptChatResponse)
  state : AgentState GptRequestMessage
  requests : Nat
  finishEvents : Nat
  assembled : List (Option GptRequestMessage)

/-- `BaseAgent.chat` composed with `GPTAgent._chat`
(src/tinyagent/base.py:147 and src/tinyagent/llm/gpt/agent.py:211), image
input omitted: format the user input when extra keyword arguments are
present (an error here aborts before any provider request), build the user
message, assemble the request, run `_process_chat` against the script,
attach `input_message`, publish the finish-chat event exactly once, and
return the response object or its first text block. -/
def gptChat (today : String) (cfg : ConfigModel) (tools : List RTool)
    (st : AgentState GptRequestMessage) (userInput : String)
    (kwargs : List (String × String)) (returnComplex : Bool)
    (script : List GptChatResponse) : GptChatCall :=
  match chatFormatUserInput kwargs userInput with
  | .error e =>
    { result := .error e, state := st, requests := 0, finishEvents := 0, assembled := [] }
  | .ok input =>
    let messages := [GptRequestMessage.msg (gptTextMessage .user input)]
    let assembled := assembleRequestMessages today cfg st.history messages
    let (res, n) := gptProcessChat tools assembled script
    match res with
    | .error e =>
      { result := .error e, state := st, requests := n, finishEvents := 0
        assembled := assembled }
    | .ok resp =>
      let resp := { resp with input_message := pickGptInputMessage assembled }
      let st' := onFinishChatGpt st resp
      if returnComplex then
        { result := .ok (.complex resp), state := st', requests := n, finishEvents := 1
          assembled := assembled }
      else
        match gptFirstText resp.message with
        | some t =>
          { result := .ok (.text t), state := st', requests := n, finishEvents := 1
            assembled := assembled }
        | none =>
          { result := .error "no text content in response", state := st', requests := n
            finishEvents := 1, assembled := assembled }

/-- Everything observable about one Anthropic-style `chat` call. -/
structure ClaudeChatCall where
  result : Except String (ChatValue ClaudeChatResponse)
  state : AgentState ClaudeMessage
  requests : Nat
  finishEvents : Nat
  assembled : List (Option ClaudeMessage)

/-- `BaseAgent.chat` composed with `ClaudeAgent._chat`
(src/tinyagent/base.py:147 and src/tinyagent/llm/claude/agent.py:201),
image input omitted.  `prefill_response` arrives through `chat`'s `**kwargs`
(and therefore also feeds `str.format`).  `_chat` defaults the prefill to a
left brace when `json_output` is set and no tools are in play, appends a
truthy prefill as an assistant message, runs `_client_chat`, sets
`input_message := messages[0]`, publishes a finish-chat event itself, and
returns either the response object or its first text block; back in
`BaseAgent.chat` the finish-chat event is published a second time — on the
text path that second publish evaluates `response.usage` on a string, so
the call raises `AttributeError` after the first publish. -/
def claudeChat (cfg : ConfigModel) (tools : List RTool)
    (st : AgentState ClaudeMessage) (userInput : String)
    (kwargs : List (String × String)) (returnComplex : Bool)
    (script : List ClaudeRaw) : ClaudeChatCall :=
  match chatFormatUserInput kwargs userInput with
  | .error e =>
    { result := .error e, state := st, requests := 0, finishEvents := 0, assembled := [] }
  | .ok input =>
    let messages : List ClaudeMessage := [{ role := .user, content := [.text input] }]
    let assembled := claudeAssembleRequestMessages cfg st.history messages
    let prefill0 := kwargs.lookup "prefill_response"
    let hasTools : Bool := cfg.use_tools && !tools.isEmpty
    let prefill : Option String :=
      match prefill0 with
      | none => if cfg.json_output && !hasTools then some "\x7b" else none
      | some p => some p
    let assembled' :=
      if optStrTruthy prefill then
        assembled ++ [some { role := .assistant, content := [.text (prefill.getD "")] }]
      else assembled
    let (res, n) := claudeClientChat tools assembled' prefill script
    match res with
    | .error e =>
      { result := .error e, state := st, requests := n, finishEvents := 0
        assembled := assembled' }
    | .ok resp =>
      let resp := { resp with input_message := (assembled'.head?).join }
      let st1 := onFinishChatClaude st resp
      if returnComplex then
        let st2 := onFinishChatClaude st1 resp
        { result := .ok (.complex resp), state := st2, requests := n, finishEvents := 2
          assembled := assembled' }
      else
        match claudeFirstText resp.message with
        | some _ =>
          { result := .error "AttributeError: str object has no attribute usage"
            state := st1, requests := n, finishEvents := 1, assembled := assembled' }
        | none =>
          { result := .error "first content block has no text attribute"
            state := st1, requests := n, finishEvents := 1, assembled := assembled' }

/-- The tool-execution loop of `GeminiAgent._process_chat`
(src/tinyagent/llm/gemini/agent.py:87): tool-use blocks sit in the message
content, `json.loads` is applied with no local handler (a decode error
propagates), and the tool runs through `BaseAgent.run_tool` (exceptions
caught into `"Error: {e}"`). -/
def geminiExecuteToolCalls (tools : List RTool) :
    List ContentBlock → Except String (List ToolResultEntry)
  | [] => .ok []
  | .toolUse c :: cs =>
    match jsonLoads c.function.arguments with
    | none => .error ("JSONDecodeError: " ++ c.function.arguments)
    | some args =>
      match run_tool tools c.function.name args with
      | .error e => .error e
      | .ok r =>
        (geminiExecuteToolCalls tools cs).map
          (fun rest => { tool_call_id := c.id, name := c.function.name, content := r } :: rest)
  | _ :: cs => geminiExecuteToolCalls tools cs

/-! ## OpenAI-style stream reassembly (`GPTAgent._handle_stream`,
src/tinyagent/llm/gpt/agent.py:99) -/

/-- The `function` fragment of a streamed tool-call delta. -/
structure GptFnDelta where
  name : Option String
  arguments : String
deriving Repr, DecidableEq

/-- One entry of a streamed `tool_calls` delta. -/
structure GptToolCallDelta where
  index : Nat
  id : Option String
  function : GptFnDelta
deriving Repr, DecidableEq

/-- A streamed `delta` object; `none` fields model absent keys. -/
structure GptDelta where
  role : Option String
  content : Option String
  tool_calls : Option (List GptToolCallDelta)
deriving Repr, DecidableEq

/-- One choice of a streamed chunk. -/
structure GptStreamChoice where
  delta : Option GptDelta
  finish_reason : Option String
deriving Repr, DecidableEq

/-- One streamed chunk (`OpenAIChatResponse` in streaming form). -/
structure GptStreamEvent where
  id : String
  created : Nat
  model : String
  system_fingerprint : Option String
  choices : List GptStreamChoice
  usage : Option TokenUsage
deriving Repr, DecidableEq

/-- The response skeleton seeded from the first chunk. -/
structure GptShell where
  id : String
  created : Nat
  model : String
  system_fingerprint : Option String
  usage : Option TokenUsage
deriving Repr, DecidableEq

/-- `choice_cache`: the choice dict whose `delta` was renamed to `message`
and is grown in place. -/
structure GptChoiceCache where
  message : GptDelta
  finish_reason : Option String
deriving Repr, DecidableEq

/-- The fold state of `_handle_stream`, extended with the ordered list of
tokens published through `publish_new_chat_token`. -/
structure GptStreamState where
  shell : Option GptShell
  cache : Option GptChoiceCache
  emitted : List String
deriving Repr, DecidableEq

/-- Python truthiness of an optional string (`None` and `""` are falsy). -/
def optContentTruthy : Option String → Bool
  | some s => !s.isEmpty
  | none => false

/-- The `tool_calls` merge loop (src/tinyagent/llm/gpt/agent.py:141): each
incoming fragment either extends the arguments of the cached call at its
index or is appended. -/
def mergeToolCallDeltas (cur : List GptToolCallDelta) :
    List GptToolCallDelta → List GptToolCallDelta
  | [] => cur
  | f :: fs =>
    let cur' :=
      if h : f.index < cur.length then
        cur.set f.index
          (let old := cur.get ⟨f.index, h⟩
           { old with function := { old.function with
               arguments := old.function.arguments ++ f.function.arguments } })
      else cur ++ [f]
    mergeToolCallDeltas cur' fs

/-- The seeding of the `OpenAIChatResponse` skeleton from the first event
(`if message is None`, src/tinyagent/llm/gpt/agent.py:106). -/
def gptSeedShell (st : GptStreamState) (e : GptStreamEvent) : GptStreamState :=
  match st.shell with
  | none =>
    { st with shell := some { id := e.id, created := e.created, model := e.model, system_fingerprint := e.system_fingerprint, usage := none } }
  | some _ => st

/-- The `"delta" in choice` body (src/tinyagent/llm/gpt/agent.py:119): seed
the choice cache from the first delta (publishing its content when truthy),
concatenate a content delta onto the cached content (always publishing the
raw delta), or merge tool-call fragments.  Python dispatches `elif "content"
in choice["delta"]` before `elif "tool_calls" in ...`. -/
def gptDeltaStep (st : GptStreamState) (choice : GptStreamChoice) (delta : GptDelta) :
    GptStreamState :=
  match st.cache with
  | none =>
    { st with
      cache := some { message := delta, finish_reason := choice.finish_reason }
      emitted :=
        if optContentTruthy delta.content then st.emitted ++ [delta.content.getD ""]
        else st.emitted }
  | some cache =>
    match delta.content with
    | some d =>
      { st with
        cache := some { cache with message := { cache.message with content := some (if optContentTruthy cache.message.content then (cache.message.content.getD "") ++ d else d) } }
        emitted := st.emitted ++ [d] }
    | none =>
      match delta.tool_calls with
      | some fs =>
        { st with
          cache := some { cache with message := { cache.message with tool_calls := some (match cache.message.tool_calls with | some (t :: ts) => mergeToolCallDeltas (t :: ts) fs | _ => fs) } } }
      | none => st

/-- The `if choice.get("finish_reason")` tail
(src/tinyagent/llm/gpt/agent.py:153): storing a finish reason into a `None`
cache is the `TypeError` Python would raise. -/
def gptFinishStep (st : GptStreamState) (choice : GptStreamChoice) :
    Except String GptStreamState :=
  match choice.finish_reason with
  | some fr =>
    match st.cache with
    | none => .error "TypeError: NoneType does not support item assignment"
    | some cache => .ok { st with cache := some { cache with finish_reason := some fr } }
  | none => .ok st

/-- The `if event.usage` tail (src/tinyagent/llm/gpt/agent.py:156). -/
def gptUsageStep (st : GptStreamState) (e : GptStreamEvent) : GptStreamState :=
  match e.usage with
  | some u =>
    match st.shell with
    | some sh => { st with shell := some { sh with usage := some u } }
    | none => st
  | none => st

/-- One iteration of the `for event in stream` loop of
`GPTAgent._handle_stream` (src/tinyagent/llm/gpt/agent.py:102): seed the
skeleton, process the first choice's delta, record its finish reason, then
record usage.  `Except.error` models the exceptions the Python code would
raise. -/
def gptStreamStep (st : GptStreamState) (e : GptStreamEvent) :
    Except String GptStreamState :=
  let st1 := gptSeedShell st e
  match e.choices with
  | [] => .ok (gptUsageStep st1 e)
  | choice :: _ =>
    let st2 :=
      match choice.delta with
      | some delta => gptDeltaStep st1 choice delta
      | none => st1
    match gptFinishStep st2 choice with
    | .error err => .error err
    | .ok st3 => .ok (gptUsageStep st3 e)

/-- The initial fold state of `_handle_stream`. -/
def gptStreamInit : GptStreamState :=
  { shell := none, cache := none, emitted := [] }

/-- `GPTAgent._handle_stream` over a whole event sequence. -/
def gptHandleStream (events : List GptStreamEvent) : Except String GptStreamState :=
  events.foldlM gptStreamStep gptStreamInit

/-- The final text of the reassembled choice: `choices[0].message.content`
(absent content reads as the empty text). -/
def gptStreamFinalText (st : GptStreamState) : String :=
  match st.cache with
  | some cache => (cache.message.content).getD ""
  | none => ""

/-- `_parse_openai_message` (src/tinyagent/llm/gpt/agent.py:27) on a
non-streaming response whose `content` is the plain string `s`: the
canonical message holds one text block with exactly that text. -/
def parseOpenaiTextMessage (role : Role) (s : String) : GptMessage :=
  { role := role, content := some [.text s], tool_calls := none }

/-! ## Anthropic-style stream reassembly (`ClaudeAgent._handle_stream`,
src/tinyagent/llm/claude/agent.py:101) -/

/-- A streamed `content_block_delta` payload; delta types other than
`text_delta` and `input_json_delta` fall through the `match` silently. -/
inductive ClaudeBlockDelta where
  | textDelta (text : String)
  | inputJsonDelta (jsonFrag : String)
  | otherDelta (type : String)
deriving Repr, DecidableEq

/-- A streamed Anthropic event. -/
inductive ClaudeStreamEvent where
  | messageStart (id model role : String) (input_tokens output_tokens : Nat)
  | contentBlockStart (block : ClaudeRawContent)
  | contentBlockDelta (delta : ClaudeBlockDelta)
  | contentBlockStop
  | messageDelta (output_tokens : Nat)
  | messageStop
deriving Repr, DecidableEq

/-- `content_block_cache`: either an accumulating text delta or an
accumulating partial-JSON delta (the cache dict keeps the delta's `type`
tag, which `content_block_stop` dispatches on). -/
inductive ClaudeBlockCache where
  | textCache (text : String)
  | jsonCache (jsonFrag : String)
deriving Repr, DecidableEq

/-- The message dict seeded by `message_start`. -/
structure ClaudeStreamShell where
  id : String
  model : String
  role : String
  content : List ClaudeRawContent
  input_tokens : Nat
  output_tokens : Nat
deriving Repr, DecidableEq

/-- The fold state of `ClaudeAgent._handle_stream` plus the ordered list of
published tokens. -/
structure ClaudeStreamState where
  shell : Option ClaudeStreamShell
  cache : Option ClaudeBlockCache
  emitted : List String
deriving Repr, DecidableEq

/-- Replace the last content block's text (`message["content"][-1]["text"] =
...`); on a non-text last block Python would only create a stray key that
nothing reads, so the block is left unchanged; an empty content list is an
`IndexError`. -/
def setLastBlockText (t : String) (content : List ClaudeRawContent) :
    Except String (List ClaudeRawContent) :=
  match content.getLast? with
  | none => .error "IndexError: list index out of range"
  | some last =>
    let last' :=
      match last with
      | .text _ => ClaudeRawContent.text t
      | b => b
    .ok (content.dropLast ++ [last'])

/-- Set the last content block's decoded `input`
(`message["content"][-1]["input"] = json.loads(...)`); as above, only a
tool-use block actually reads the key. -/
def setLastBlockInput (args : ArgsDict) (content : List ClaudeRawContent) :
    Except String (List ClaudeRawContent) :=
  match content.getLast? with
  | none => .error "IndexError: list index out of range"
  | some last =>
    let last' :=
      match last with
      | .toolUse id name _ => ClaudeRawContent.toolUse id name args
      | b => b
    .ok (content.dropLast ++ [last'])

/-- One iteration of the `for event in stream` loop of
`ClaudeAgent._handle_stream`.  On the first `text_delta` of a block the
cache is seeded and, when `prefill_response` is truthy, the prefill is
prepended to the cached text — while the published token is always the raw
delta text. -/
def claudeStreamStep (prefill : Option String) (st : ClaudeStreamState)
    (e : ClaudeStreamEvent) : Except String ClaudeStreamState :=
  match e with
  | .messageStart id model role tin tout =>
    let seeded : ClaudeStreamShell :=
      { id := id, model := model, role := role, content := []
        input_tokens := tin, output_tokens := tout }
    .ok { st with shell := some seeded }
  | .contentBlockStart b =>
    match st.shell with
    | none => .error "TypeError: NoneType has no content"
    | some sh => .ok { st with shell := some { sh with content := sh.content ++ [b] } }
  | .contentBlockDelta (.textDelta t) =>
    match st.cache with
    | none =>
      let seeded := if optStrTruthy prefill then (prefill.getD "") ++ t else t
      .ok { st with cache := some (.textCache seeded), emitted := st.emitted ++ [t] }
    | some (.textCache old) =>
      .ok { st with cache := some (.textCache (old ++ t)), emitted := st.emitted ++ [t] }
    | some (.jsonCache _) => .error "KeyError: text"
  | .contentBlockDelta (.inputJsonDelta s) =>
    match st.cache with
    | none => .ok { st with cache := some (.jsonCache s) }
    | some (.jsonCache old) => .ok { st with cache := some (.jsonCache (old ++ s)) }
    | some (.textCache _) => .error "KeyError: partial_json"
  | .contentBlockDelta (.otherDelta _) => .ok st
  | .contentBlockStop =>
    match st.cache with
    | none => .error "AttributeError: NoneType has no attribute get"
    | some (.jsonCache frag) =>
      match jsonLoads frag with
      | none => .error ("JSONDecodeError: " ++ frag)
      | some args =>
        match st.shell with
        | none => .error "TypeError: NoneType has no content"
        | some sh =>
          match setLastBlockInput args sh.content with
          | .error e => .error e
          | .ok content' =>
            .ok { st with shell := some { sh with content := content' }, cache := none }
    | some (.textCache t) =>
      match st.shell with
      | none => .error "TypeError: NoneType has no content"
      | some sh =>
        match setLastBlockText t sh.content with
        | .error e => .error e
        | .ok content' =>
          .ok { st with shell := some { sh with content := content' }, cache := none }
  | .messageDelta tout =>
    match st.shell with
    | none => .error "TypeError: NoneType has no usage"
    | some sh => .ok { st with shell := some { sh with output_tokens := tout } }
  | .messageStop => .ok st

/-- The initial fold state of the Anthropic handler. -/
def claudeStreamInit : ClaudeStreamState :=
  { shell := none, cache := none, emitted := [] }

/-- `ClaudeAgent._handle_stream` over a whole event sequence. -/
def claudeHandleStream (prefill : Option String) (events : List ClaudeStreamEvent) :
    Except String ClaudeStreamState :=
  events.foldlM (claudeStreamStep prefill) claudeStreamInit

/-- The raw response dict produced by the Anthropic stream handler, as fed
to `_assemble_chat_response`. -/
def claudeStreamRaw (st : ClaudeStreamState) : Option ClaudeRaw :=
  st.shell.map (fun sh =>
    { content := sh.content, model := sh.model
      input_tokens := sh.input_tokens, output_tokens := sh.output_tokens })

/-! ## Provider clients (src/tinyagent/llm/gpt/client.py,
src/tinyagent/llm/claude/client.py) -/

/-- `OpenAIClient.api_request` (src/tinyagent/llm/gpt/client.py:65) with the
HTTP layer abstracted into `server : attempt index → (status code, body)`.
A 200 yields the body; a 429 with retry budget left sleeps
`(4 - retry) * 10` seconds (recorded in the returned delay list) and
retries; anything else — including a 429 with the budget exhausted — raises
an error carrying the status code and the body text. -/
def openaiApiRequest (server : Nat → Nat × String) :
    Nat → Nat → Except String String × List Int
  | k, retry + 1 =>
    let status := (server k).1
    let body := (server k).2
    if status = 200 then (.ok body, [])
    else if status = 429 then
      let p := openaiApiRequest server (k + 1) retry
      (p.1, ((4 - ((retry + 1 : Nat) : Int)) * 10) :: p.2)
    else
      (.error ("OpenAI API request failed with status code " ++
        toString status ++ " " ++ body), [])
  | k, 0 =>
    let status := (server k).1
    let body := (server k).2
    if status = 200 then (.ok body, [])
    else
      (.error ("OpenAI API request failed with status code " ++
        toString status ++ " " ++ body), [])

/-- `AnthropicClient.api_request` (src/tinyagent/llm/claude/client.py:37):
identical retry structure, different error prefix. -/
def anthropicApiRequest (server : Nat → Nat × String) :
    Nat → Nat → Except String String × List Int
  | k, retry + 1 =>
    let status := (server k).1
    let body := (server k).2
    if status = 200 then (.ok body, [])
    else if status = 429 then
      let p := anthropicApiRequest server (k + 1) retry
      (p.1, ((4 - ((retry + 1 : Nat) : Int)) * 10) :: p.2)
    else
      (.error ("Anthropic API request failed with status code " ++
        toString status ++ " " ++ body), [])
  | k, 0 =>
    let status := (server k).1
    let body := (server k).2
    if status = 200 then (.ok body, [])
    else
      (.error ("Anthropic API request failed with status code " ++
        toString status ++ " " ++ body), [])

/-! ## Derived predicates and concrete fixtures used by the claim theorems -/

/-- Whether an `Except` value is a success. -/
def isOkB {α : Type} : Except String α → Bool
  | .ok _ => true
  | .error _ => false

/-- Truthiness of `response.message.tool_calls` as tested at
src/tinyagent/llm/gpt/agent.py:178. -/
def hasToolCalls (r : GptChatResponse) : Bool :=
  match r.message.tool_calls with
  | some (_ :: _) => true
  | _ => false

/-- A response round whose tool calls all execute without a propagating
exception in the OpenAI-style agent. -/
def gptToolRoundOk (tools : List RTool) (r : GptChatResponse) : Bool :=
  match r.message.tool_calls with
  | some (c :: cs) => isOkB (gptExecuteToolCalls tools (c :: cs))
  | _ => false

/-- A raw Anthropic round that assembles and executes at least one tool
call successfully. -/
def claudeToolRoundOk (tools : List RTool) (raw : ClaudeRaw) : Bool :=
  match assembleClaudeChatResponse raw with
  | .ok resp =>
    match claudeExecuteTools tools resp.message.content with
    | .ok (_ :: _) => true
    | _ => false
  | .error _ => false

/-- A raw Anthropic round that assembles successfully and contains no tool
use. -/
def claudeNoToolRound (tools : List RTool) (raw : ClaudeRaw) : Bool :=
  match assembleClaudeChatResponse raw with
  | .ok resp =>
    match claudeExecuteTools tools resp.message.content with
    | .ok [] => true
    | _ => false
  | .error _ => false

/-- The concatenation, in emission order, of the tokens published through
the new-chat-token event. -/
def concatTokens (l : List String) : String := l.foldl (· ++ ·) ""

/-- A tool that returns `"42"` on any arguments. -/
def echoTool : RTool := { name := "echo", run := fun _ => .ok "42" }

/-- A tool whose `run` raises an exception with text `boom`. -/
def boomTool : RTool := { name := "boom", run := fun _ => .error "boom" }

/-- A tool call requesting `echo` with empty JSON arguments. -/
def echoCall : ToolUseContent :=
  { index := 0, id := "call1", function := { name := "echo", arguments := "\x7b\x7d" } }

/-- A provider response that asks for one tool call. -/
def tcResp : GptChatResponse :=
  { message := { role := .assistant, content := none, tool_calls := some [echoCall] }
    usage := { prompt := 3, completion := 5 }
    model := "m", finish_reason := "tool_calls", input_message := none }

/-- A plain text provider response. -/
def txtResp : GptChatResponse :=
  { message := { role := .assistant, content := some [.text "done"], tool_calls := none }
    usage := { prompt := 7, completion := 2 }
    model := "m", finish_reason := "stop", input_message := none }

/-- A raw Anthropic text response. -/
def claudeRawText : ClaudeRaw :=
  { content := [.text "hello"], model := "c", input_tokens := 3, output_tokens := 5 }

/-- A raw Anthropic response asking for the `boom` tool. -/
def claudeRawBoom : ClaudeRaw :=
  { content := [.toolUse "tu1" "boom" []], model := "c", input_tokens := 1, output_tokens := 1 }

/-- A raw Anthropic response asking for the `echo` tool. -/
def claudeRawEcho : ClaudeRaw :=
  { content := [.toolUse "tu2" "echo" []], model := "c", input_tokens := 2, output_tokens := 2 }

/-- A baseline configuration: defaults of `BaseConfig` with magic
placeholders disabled and history disabled. -/
def cfg0 : ConfigModel :=
  { system_prompt := "You are a helpful assistant", json_output := false
    enable_history := false, stream := false, enable_magic_placeholders := false
    use_tools := true }

/-- `cfg0` with `enable_history` switched on. -/
def cfgH : ConfigModel := { cfg0 with enable_history := true }

/-- A deterministic Anthropic stream: one text block delivered as a single
delta closing a JSON object, as produced when `prefill_response = "\x7b"`. -/
def c5Events : List ClaudeStreamEvent :=
  [ .messageStart "i" "m" "assistant" 3 0,
    .contentBlockStart (.text ""),
    .contentBlockDelta (.textDelta "\"a\": 1\x7d"),
    .contentBlockStop,
    .messageDelta 9,
    .messageStop ]

def searchTool : PyTool :=
  { name := "search", description := "d", args_schema := none
    runParams := [{ name := "q", annot := .str, hasDefault := false },
                  { name := "limit", annot := .int, hasDefault := true }] }

def searchSig : ToolSignature :=
  { type := "function"
    function :=
      { name := "search", description := "d"
        parameters :=
          { type := "object"
            properties := [("q", "string"), ("limit", "number")]
            required := ["q"] } } }



/-- A deterministic single-text-block Anthropic stream delivering the given
text deltas in order. -/
def claudeTextStream (id model role : String) (tin tout tout2 : Nat)
    (deltas : List String) : List ClaudeStreamEvent :=
  [.messageStart id model role tin tout, .contentBlockStart (.text "")] ++
  deltas.map (fun t => ClaudeStreamEvent.contentBlockDelta (.textDelta t)) ++
  [.contentBlockStop, .messageDelta tout2, .messageStop]


/-- A deterministic OpenAI-style stream: two content deltas then a finish
chunk carrying usage (fields: id, created, model, system fingerprint,
choices, usage). -/
def c5GptEvents : List GptStreamEvent :=
  [ ⟨"i", 1, "m", none, [⟨some ⟨some "assistant", some "He", none⟩, none⟩], none⟩,
    ⟨"i", 1, "m", none, [⟨some ⟨none, some "llo", none⟩, none⟩], none⟩,
    ⟨"i", 1, "m", none, [⟨none, some "stop"⟩], some ⟨3, 4⟩⟩ ]

/-- The state `_handle_stream` reaches on `c5GptEvents`. -/
def c5GptFinal : GptStreamState :=
  ⟨some ⟨"i", 1, "m", none, some ⟨3, 4⟩⟩,
   some ⟨⟨some "assistant", some "Hello", none⟩, some "stop"⟩,
   ["He", "llo"]⟩

/-! ## Supporting lemmas -/

@[simp] theorem exceptMap_ok {α β : Type} (f : α → β) (x : α) :
    Except.map f (Except.ok x : Except String α) = .ok (f x) := rfl

@[simp] theorem exceptMap_error {α β : Type} (f : α → β) (e : String) :
    Except.map f (Except.error e : Except String α) = .error e := rfl

theorem pyFormatAux_bracefree (kwargs : List (String × String)) {l : List Char}
    (h : BraceFree l) : pyFormatAux kwargs none l = .ok l := by
  induction l with
  | nil => simp [pyFormatAux]
  | cons c cs ih =>
    obtain ⟨h1, h2⟩ := h
    have hc1 : ¬(c = lbrace) := fun e => h1 (by simp [e])
    have hc2 : ¬(c = rbrace) := fun e => h2 (by simp [e])
    have ih' := ih ⟨fun m => h1 (List.mem_cons_of_mem _ m),
                   fun m => h2 (List.mem_cons_of_mem _ m)⟩
    rw [pyFormatAux.eq_def]
    simp [hc1, hc2, ih']

theorem pyFormatAux_copy (kwargs : List (String × String)) {pre : List Char}
    (rest : List Char) (h : BraceFree pre) :
    pyFormatAux kwargs none (pre ++ rest) =
      (pyFormatAux kwargs none rest).map (fun r => pre ++ r) := by
  induction pre with
  | nil =>
    cases hr : pyFormatAux kwargs none rest <;> simp [hr]
  | cons c cs ih =>
    obtain ⟨h1, h2⟩ := h
    have hc1 : ¬(c = lbrace) := fun e => h1 (by simp [e])
    have hc2 : ¬(c = rbrace) := fun e => h2 (by simp [e])
    have ih' := ih ⟨fun m => h1 (List.mem_cons_of_mem _ m),
                   fun m => h2 (List.mem_cons_of_mem _ m)⟩
    rw [List.cons_append, pyFormatAux.eq_def]
    cases hr : pyFormatAux kwargs none rest <;>
      simp [hc1, hc2, ih', hr]

theorem pyFormatAux_field (kwargs : List (String × String)) {k : List Char}
    (acc rest : List Char) (hk : BraceFree k) :
    pyFormatAux kwargs (some acc) (k ++ rbrace :: rest) =
      (match kwargs.lookup (String.mk (acc ++ k)) with
       | some v => (pyFormatAux kwargs none rest).map (fun r => v.data ++ r)
       | none => .error ("KeyError: " ++ String.mk (acc ++ k))) := by
  induction k generalizing acc with
  | nil =>
    rw [List.nil_append, pyFormatAux.eq_def]
    simp
  | cons c cs ih =>
    obtain ⟨h1, h2⟩ := hk
    have hc2 : ¬(c = rbrace) := fun e => h2 (by simp [e])
    have ih' := ih (acc ++ [c]) ⟨fun m => h1 (List.mem_cons_of_mem _ m),
                   fun m => h2 (List.mem_cons_of_mem _ m)⟩
    rw [List.cons_append, pyFormatAux.eq_def]
    simp only [if_neg hc2]
    rw [ih']
    simp [List.append_assoc]

theorem pyFormatAux_placeholder (kwargs : List (String × String)) {k : List Char}
    (suf : List Char) (hk : BraceFree k) :
    pyFormatAux kwargs none (lbrace :: (k ++ rbrace :: suf)) =
      (match kwargs.lookup (String.mk k) with
       | some v => (pyFormatAux kwargs none suf).map (fun r => v.data ++ r)
       | none => .error ("KeyError: " ++ String.mk k)) := by
  cases k with
  | nil =>
    have hlr : ¬(rbrace = lbrace) := by decide
    rw [pyFormatAux.eq_def]
    simp only [List.nil_append, if_pos rfl, if_neg hlr]
    have h0 := @pyFormatAux_field kwargs [] ([] : List Char) suf ⟨by simp, by simp⟩
    simpa using h0
  | cons a k' =>
    obtain ⟨h1, h2⟩ := hk
    have ha : ¬(a = lbrace) := fun e => h1 (by simp [e])
    rw [pyFormatAux.eq_def]
    simp only [List.cons_append, if_pos rfl, if_neg ha]
    have h0 := @pyFormatAux_field kwargs (a :: k') ([] : List Char) suf ⟨h1, h2⟩
    simpa using h0

@[simp] theorem string_mk_data (l : List Char) : (String.mk l).data = l := rfl



theorem buildIntrospectedParams_error {ps : List PyParam}
    (h : ∃ p ∈ ps, TYPE_MAP p.annot = none) :
    ∃ e, buildIntrospectedParams ps = .error e := by
  induction ps with
  | nil => simp at h
  | cons p ps ih =>
    rcases h with ⟨q, hq, hmap⟩
    rcases List.mem_cons.1 hq with rfl | hq'
    · refine ⟨"Unsupported type: " ++ q.annot.show ++ " for auto-generation of function signature", ?_⟩
      simp [buildIntrospectedParams, hmap]
    · cases hp : TYPE_MAP p.annot with
      | none =>
        refine ⟨"Unsupported type: " ++ p.annot.show ++ " for auto-generation of function signature", ?_⟩
        simp [buildIntrospectedParams, hp]
      | some ty =>
        rcases ih ⟨q, hq', hmap⟩ with ⟨e, he⟩
        refine ⟨e, ?_⟩
        simp [buildIntrospectedParams, hp, he]

theorem buildIntrospectedParams_ok {ps : List PyParam}
    {props : List (String × String)} {req : List String}
    (h : buildIntrospectedParams ps = .ok (props, req)) :
    req = (ps.filter (fun p => !p.hasDefault)).map PyParam.name := by
  induction ps generalizing props req with
  | nil =>
    simp [buildIntrospectedParams] at h
    simp [h.2]
  | cons p ps ih =>
    cases hp : TYPE_MAP p.annot with
    | none => simp [buildIntrospectedParams, hp] at h
    | some ty =>
      cases hrec : buildIntrospectedParams ps with
      | error e => simp [buildIntrospectedParams, hp, hrec] at h
      | ok pr =>
        obtain ⟨props', req'⟩ := pr
        have hih := ih hrec
        simp [buildIntrospectedParams, hp, hrec] at h
        cases hd : p.hasDefault with
        | true =>
          rw [hd] at h
          simp at h
          simp [List.filter_cons, hd, ← h.2, hih]
        | false =>
          rw [hd] at h
          simp at h
          simp [List.filter_cons, hd, ← h.2, hih]

theorem name_mem_filter_map {ps : List PyParam} {p : PyParam}
    (hnd : (ps.map PyParam.name).Nodup) (hp : p ∈ ps) :
    (p.name ∈ (ps.filter (fun q => !q.hasDefault)).map PyParam.name ↔
      p.hasDefault = false) := by
  induction ps with
  | nil => simp at hp
  | cons q ps ih =>
    simp only [List.map_cons, List.nodup_cons] at hnd
    rcases List.mem_cons.1 hp with rfl | hp'
    · by_cases hd : p.hasDefault = false
      · simp [List.filter_cons, hd]
      · have hd' : p.hasDefault = true := by
          cases hdd : p.hasDefault
          · exact absurd hdd hd
          · rfl
        simp only [List.filter_cons, hd', Bool.not_true]
        simp only [Bool.false_eq_true, if_false]
        constructor
        · intro hmem
          exfalso
          rcases List.mem_map.1 hmem with ⟨r, hr, hrn⟩
          exact hnd.1 (hrn ▸ List.mem_map_of_mem PyParam.name (List.mem_of_mem_filter hr))
        · intro hfalse
          exact absurd hfalse (by decide)
    · have hne : p.name ≠ q.name := by
        intro heq
        exact hnd.1 (heq ▸ List.mem_map_of_mem PyParam.name hp')
      by_cases hd : q.hasDefault = false
      · simp only [List.filter_cons, hd, Bool.not_false, if_true, List.map_cons,
          List.mem_cons]
        rw [ih hnd.2 hp']
        constructor
        · rintro (h | h)
          · exact absurd h hne
          · exact h
        · intro h
          exact Or.inr h
      · have hd' : q.hasDefault = true := by
          cases hdd : q.hasDefault
          · exact absurd hdd hd
          · rfl
        simp only [List.filter_cons, hd', Bool.not_true]
        simp only [Bool.false_eq_true, if_false]
        exact ih hnd.2 hp'



theorem gptProcessChat_final (tools : List RTool) (messages : List (Option GptRequestMessage))
    {r : GptChatResponse} (rest : List GptChatResponse)
    (h : hasToolCalls r = false) :
    gptProcessChat tools messages (r :: rest) = (.ok r, 1) := by
  cases htc : r.message.tool_calls with
  | none => simp [gptProcessChat, htc]
  | some l =>
    cases l with
    | nil => simp [gptProcessChat, htc]
    | cons c cs => simp [hasToolCalls, htc] at h


theorem claudeClientChat_cons_none (tools : List RTool)
    (messages : List (Option ClaudeMessage)) (raw : ClaudeRaw) (rest : List ClaudeRaw) :
    claudeClientChat tools messages none (raw :: rest) =
      (match assembleClaudeChatResponse raw with
       | .error e => (.error e, 1)
       | .ok response =>
         match claudeExecuteTools tools response.message.content with
         | .error e => (.error e, 1)
         | .ok results =>
           if results.isEmpty then (.ok response, 1)
           else
             let p := claudeClientChat tools (messages ++ [some response.message,
               some { role := .user, content := results }]) none rest
             (p.1, p.2 + 1)) := rfl



theorem string_isEmpty_false {s : String} (h : s ≠ "") : s.isEmpty = false := by
  cases hs : s.isEmpty
  · rfl
  · exact absurd ((String.isEmpty_iff s).mp hs) h

theorem concatTokens_append (l : List String) (x : String) :
    concatTokens (l ++ [x]) = concatTokens l ++ x := by
  simp [concatTokens, List.foldl_append]

theorem concatTokens_foldl_init (l : List String) (a : String) :
    l.foldl (· ++ ·) a = a ++ concatTokens l := by
  induction l generalizing a with
  | nil => simp [concatTokens]
  | cons x l ih =>
    rw [List.foldl_cons, ih]
    have h2 : concatTokens (x :: l) = x ++ concatTokens l := by
      unfold concatTokens
      rw [List.foldl_cons, ih, String.empty_append]
      rfl
    rw [h2, String.append_assoc]

theorem concatTokens_cons (x : String) (l : List String) :
    concatTokens (x :: l) = x ++ concatTokens l := by
  unfold concatTokens
  rw [List.foldl_cons, concatTokens_foldl_init, String.empty_append]
  rfl

theorem gptStreamFinalText_congr {st st' : GptStreamState}
    (h : st'.cache = st.cache) : gptStreamFinalText st' = gptStreamFinalText st := by
  simp [gptStreamFinalText, h]

theorem gptSeedShell_emitted (st : GptStreamState) (e : GptStreamEvent) :
    (gptSeedShell st e).emitted = st.emitted ∧ (gptSeedShell st e).cache = st.cache := by
  cases hs : st.shell <;> simp [gptSeedShell, hs]

theorem gptUsageStep_emitted (st : GptStreamState) (e : GptStreamEvent) :
    (gptUsageStep st e).emitted = st.emitted ∧ (gptUsageStep st e).cache = st.cache := by
  cases hu : e.usage with
  | none => simp [gptUsageStep, hu]
  | some u => cases hs : st.shell <;> simp [gptUsageStep, hu, hs]

theorem gptFinishStep_emitted {st st' : GptStreamState} {choice : GptStreamChoice}
    (h : gptFinishStep st choice = .ok st') :
    st'.emitted = st.emitted ∧ gptStreamFinalText st' = gptStreamFinalText st := by
  cases hf : choice.finish_reason with
  | none =>
    rw [gptFinishStep, hf] at h
    cases h
    exact ⟨rfl, rfl⟩
  | some fr =>
    rw [gptFinishStep, hf] at h
    cases hc : st.cache with
    | none => rw [hc] at h; cases h
    | some cache =>
      rw [hc] at h
      cases h
      exact ⟨rfl, by simp [gptStreamFinalText, hc]⟩

theorem gptDeltaStep_inv (st : GptStreamState) (choice : GptStreamChoice)
    (delta : GptDelta) (h : concatTokens st.emitted = gptStreamFinalText st) :
    concatTokens (gptDeltaStep st choice delta).emitted =
      gptStreamFinalText (gptDeltaStep st choice delta) := by
  cases hc : st.cache with
  | none =>
    have hft : gptStreamFinalText st = "" := by simp [gptStreamFinalText, hc]
    rw [hft] at h
    cases hdc : delta.content with
    | none => simp [gptDeltaStep, hc, hdc, optContentTruthy, gptStreamFinalText, h]
    | some c =>
      by_cases hce : c = ""
      · subst hce
        have hemp : ("" : String).isEmpty = true := rfl
        simp [gptDeltaStep, hc, hdc, optContentTruthy, gptStreamFinalText, h, hemp]
      · have ht : optContentTruthy (some c) = true := by
          simp [optContentTruthy, string_isEmpty_false hce]
        simp [gptDeltaStep, hc, hdc, ht, gptStreamFinalText, concatTokens_append, h,
          String.empty_append]
  | some cache =>
    cases hdc : delta.content with
    | some d =>
      have hft : gptStreamFinalText st = (cache.message.content).getD "" := by
        simp [gptStreamFinalText, hc]
      rw [hft] at h
      cases hcc : cache.message.content with
      | none =>
        have : concatTokens st.emitted = "" := by simpa [hcc] using h
        simp [gptDeltaStep, hc, hdc, hcc, optContentTruthy, gptStreamFinalText,
          concatTokens_append, this, String.empty_append]
      | some old =>
        by_cases hoe : old = ""
        · subst hoe
          have : concatTokens st.emitted = "" := by simpa [hcc] using h
          simp [gptDeltaStep, hc, hdc, hcc, optContentTruthy, gptStreamFinalText,
            concatTokens_append, this, String.empty_append]
        · have ht : optContentTruthy (some old) = true := by
            simp [optContentTruthy, string_isEmpty_false hoe]
          have : concatTokens st.emitted = old := by simpa [hcc] using h
          simp [gptDeltaStep, hc, hdc, hcc, ht, gptStreamFinalText,
            concatTokens_append, this]
    | none =>
      cases hdt : delta.tool_calls with
      | some fs =>
        have hft : gptStreamFinalText st = (cache.message.content).getD "" := by
          simp [gptStreamFinalText, hc]
        simp [gptDeltaStep, hc, hdc, hdt, gptStreamFinalText, h, hft]
      | none => simp [gptDeltaStep, hc, hdc, hdt, h]

theorem gptFinishUsage_inv {st2 st' : GptStreamState} {choice : GptStreamChoice}
    {e : GptStreamEvent}
    (h : (match gptFinishStep st2 choice with
          | .error err => (Except.error err : Except String GptStreamState)
          | .ok st3 => Except.ok (gptUsageStep st3 e)) = .ok st')
    (hinv : concatTokens st2.emitted = gptStreamFinalText st2) :
    concatTokens st'.emitted = gptStreamFinalText st' := by
  cases hfin : gptFinishStep st2 choice with
  | error err => rw [hfin] at h; cases h
  | ok st3 =>
    rw [hfin] at h
    cases h
    have hf := gptFinishStep_emitted hfin
    have hu := gptUsageStep_emitted st3 e
    rw [hu.1, gptStreamFinalText_congr hu.2, hf.1, hf.2]
    exact hinv

theorem gptStreamStep_inv {st st' : GptStreamState} {e : GptStreamEvent}
    (h : gptStreamStep st e = .ok st')
    (hinv : concatTokens st.emitted = gptStreamFinalText st) :
    concatTokens st'.emitted = gptStreamFinalText st' := by
  have hseed := gptSeedShell_emitted st e
  have hinv1 : concatTokens (gptSeedShell st e).emitted =
      gptStreamFinalText (gptSeedShell st e) := by
    rw [hseed.1, gptStreamFinalText_congr hseed.2]
    exact hinv
  rw [gptStreamStep] at h
  cases hch : e.choices with
  | nil =>
    rw [hch] at h
    cases h
    have hu := gptUsageStep_emitted (gptSeedShell st e) e
    rw [hu.1, gptStreamFinalText_congr hu.2]
    exact hinv1
  | cons choice rest =>
    rw [hch] at h
    cases hd : choice.delta with
    | some delta =>
      simp only [hd] at h
      exact gptFinishUsage_inv h (gptDeltaStep_inv _ _ _ hinv1)
    | none =>
      simp only [hd] at h
      exact gptFinishUsage_inv h hinv1

theorem gptHandleStream_foldl_inv (evs : List GptStreamEvent) :
    ∀ st0 st, concatTokens st0.emitted = gptStreamFinalText st0 →
      List.foldlM gptStreamStep st0 evs = .ok st →
      concatTokens st.emitted = gptStreamFinalText st := by
  induction evs with
  | nil =>
    intro st0 st h0 h
    rw [List.foldlM_nil] at h
    have h' : (Except.ok st0 : Except String GptStreamState) = Except.ok st := h
    cases h'
    exact h0
  | cons e evs ih =>
    intro st0 st h0 h
    rw [List.foldlM_cons] at h
    cases hstep : gptStreamStep st0 e with
    | error err => rw [hstep] at h; cases h
    | ok s1 =>
      rw [hstep] at h
      exact ih s1 st (gptStreamStep_inv hstep h0) h


@[simp] theorem exceptBind_ok {α β : Type} (x : α) (f : α → Except String β) :
    (Except.ok x >>= f) = f x := rfl

@[simp] theorem exceptBind_error {α β : Type} (e : String) (f : α → Except String β) :
    ((Except.error e : Except String α) >>= f) = Except.error e := rfl

theorem claude_deltas_fold (prefill : Option String) (ds : List String)
    (sh : ClaudeStreamShell) (t : String) (em : List String) :
    List.foldlM (claudeStreamStep prefill)
      (⟨some sh, some (.textCache t), em⟩ : ClaudeStreamState)
      (ds.map (fun s => ClaudeStreamEvent.contentBlockDelta (.textDelta s))) =
      .ok ⟨some sh, some (.textCache (t ++ concatTokens ds)), em ++ ds⟩ := by
  induction ds generalizing t em with
  | nil =>
    rw [List.map_nil, List.foldlM_nil]
    exact congrArg Except.ok (by simp [concatTokens, String.append_empty])
  | cons d ds ih =>
    rw [List.map_cons, List.foldlM_cons]
    have hstep : claudeStreamStep prefill
        (⟨some sh, some (.textCache t), em⟩ : ClaudeStreamState)
        (.contentBlockDelta (.textDelta d)) =
        .ok ⟨some sh, some (.textCache (t ++ d)), em ++ [d]⟩ := rfl
    rw [hstep, exceptBind_ok, ih]
    exact congrArg Except.ok (by
      simp [concatTokens_cons, String.append_assoc, List.append_assoc])

theorem claudeHandleStream_textStream (prefill : Option String)
    (id model role : String) (tin tout tout2 : Nat) (d : String) (ds : List String) :
    claudeHandleStream prefill (claudeTextStream id model role tin tout tout2 (d :: ds)) =
      .ok ⟨some ⟨id, model, role,
        [.text ((if optStrTruthy prefill then prefill.getD "" else "") ++
          concatTokens (d :: ds))], tin, tout2⟩, none, d :: ds⟩ := by
  have hshape : claudeTextStream id model role tin tout tout2 (d :: ds) =
      ClaudeStreamEvent.messageStart id model role tin tout ::
      ClaudeStreamEvent.contentBlockStart (.text "") ::
      ClaudeStreamEvent.contentBlockDelta (.textDelta d) ::
      (ds.map (fun t => ClaudeStreamEvent.contentBlockDelta (.textDelta t)) ++
        [ClaudeStreamEvent.contentBlockStop, ClaudeStreamEvent.messageDelta tout2,
         ClaudeStreamEvent.messageStop]) := by
    simp [claudeTextStream]
  unfold claudeHandleStream
  rw [hshape, List.foldlM_cons]
  have s1 : claudeStreamStep prefill claudeStreamInit
      (.messageStart id model role tin tout) =
      .ok ⟨some ⟨id, model, role, [], tin, tout⟩, none, []⟩ := rfl
  rw [s1, exceptBind_ok, List.foldlM_cons]
  have s2 : claudeStreamStep prefill
      (⟨some ⟨id, model, role, [], tin, tout⟩, none, []⟩ : ClaudeStreamState)
      (.contentBlockStart (.text "")) =
      .ok ⟨some ⟨id, model, role, [.text ""], tin, tout⟩, none, []⟩ := rfl
  rw [s2, exceptBind_ok, List.foldlM_cons]
  have s3 : claudeStreamStep prefill
      (⟨some ⟨id, model, role, [.text ""], tin, tout⟩, none, []⟩ : ClaudeStreamState)
      (.contentBlockDelta (.textDelta d)) =
      .ok ⟨some ⟨id, model, role, [.text ""], tin, tout⟩,
        some (.textCache ((if optStrTruthy prefill then prefill.getD "" else "") ++ d)),
        [d]⟩ := by
    cases hp : optStrTruthy prefill <;>
      simp [claudeStreamStep, hp, String.empty_append]
  rw [s3, exceptBind_ok, List.foldlM_append, claude_deltas_fold, exceptBind_ok]
  have s4 : claudeStreamStep prefill
      (⟨some ⟨id, model, role, [.text ""], tin, tout⟩,
        some (.textCache ((if optStrTruthy prefill then prefill.getD "" else "") ++ d ++
          concatTokens ds)), [d] ++ ds⟩ : ClaudeStreamState)
      .contentBlockStop =
      .ok ⟨some ⟨id, model, role,
        [.text ((if optStrTruthy prefill then prefill.getD "" else "") ++ d ++
          concatTokens ds)], tin, tout⟩, none, [d] ++ ds⟩ := by
    simp [claudeStreamStep, setLastBlockText]
  rw [List.foldlM_cons, s4, exceptBind_ok, List.foldlM_cons]
  have s5 : claudeStreamStep prefill
      (⟨some ⟨id, model, role,
        [.text ((if optStrTruthy prefill then prefill.getD "" else "") ++ d ++
          concatTokens ds)], tin, tout⟩, none, [d] ++ ds⟩ : ClaudeStreamState)
      (.messageDelta tout2) =
      .ok ⟨some ⟨id, model, role,
        [.text ((if optStrTruthy prefill then prefill.getD "" else "") ++ d ++
          concatTokens ds)], tin, tout2⟩, none, [d] ++ ds⟩ := rfl
  rw [s5, exceptBind_ok, List.foldlM_cons]
  have s6 : claudeStreamStep prefill
      (⟨some ⟨id, model, role,
        [.text ((if optStrTruthy prefill then prefill.getD "" else "") ++ d ++
          concatTokens ds)], tin, tout2⟩, none, [d] ++ ds⟩ : ClaudeStreamState)
      .messageStop =
      .ok ⟨some ⟨id, model, role,
        [.text ((if optStrTruthy prefill then prefill.getD "" else "") ++ d ++
          concatTokens ds)], tin, tout2⟩, none, [d] ++ ds⟩ := rfl
  rw [s6, exceptBind_ok, List.foldlM_nil]
  exact congrArg Except.ok (by
    simp [concatTokens_cons, String.append_assoc, List.singleton_append])


theorem gptChat_assembled (today : String) (cfg : ConfigModel) (tools : List RTool)
    (st : AgentState GptRequestMessage) (u : String) (rc : Bool)
    (script : List GptChatResponse) :
    (gptChat today cfg tools st u [] rc script).assembled =
      assembleRequestMessages today cfg st.history
        [GptRequestMessage.msg (gptTextMessage .user u)] := by
  have hfmt : chatFormatUserInput ([] : List (String × String)) u = .ok u := rfl
  rcases hpr : gptProcessChat tools (assembleRequestMessages today cfg st.history
    [GptRequestMessage.msg (gptTextMessage .user u)]) script with ⟨res, n⟩
  cases res with
  | error e => simp [gptChat, hfmt, hpr]
  | ok resp =>
    cases rc with
    | true => simp [gptChat, hfmt, hpr]
    | false =>
      cases hft : gptFirstText resp.message with
      | some t => simp [gptChat, hfmt, hpr, hft]
      | none => simp [gptChat, hfmt, hpr, hft]

theorem gptChat_ok_state (today : String) (cfg : ConfigModel) (tools : List RTool)
    (st : AgentState GptRequestMessage) (u : String) (rc : Bool)
    (script : List GptChatResponse) (v : ChatValue GptChatResponse)
    (h : (gptChat today cfg tools st u [] rc script).result = .ok v) :
    ∃ resp n,
      gptProcessChat tools (assembleRequestMessages today cfg st.history
        [GptRequestMessage.msg (gptTextMessage .user u)]) script = (.ok resp, n) ∧
      (gptChat today cfg tools st u [] rc script).state =
        onFinishChatGpt st { resp with input_message := pickGptInputMessage (assembleRequestMessages today cfg st.history [GptRequestMessage.msg (gptTextMessage .user u)]) } := by
  have hfmt : chatFormatUserInput ([] : List (String × String)) u = .ok u := rfl
  rcases hpr : gptProcessChat tools (assembleRequestMessages today cfg st.history
    [GptRequestMessage.msg (gptTextMessage .user u)]) script with ⟨res, n⟩
  cases res with
  | error e => simp [gptChat, hfmt, hpr] at h
  | ok resp =>
    cases rc with
    | true => exact ⟨resp, n, rfl, by simp [gptChat, hfmt, hpr]⟩
    | false =>
      cases hft : gptFirstText resp.message with
      | some t => exact ⟨resp, n, rfl, by simp [gptChat, hfmt, hpr, hft]⟩
      | none => simp [gptChat, hfmt, hpr, hft] at h

theorem pickGptInputMessage_fresh (today : String) (cfg : ConfigModel) (u : String) :
    pickGptInputMessage (assembleRequestMessages today cfg []
      [GptRequestMessage.msg (gptTextMessage .user u)]) =
      some (.msg (gptTextMessage .user u)) := by
  cases hsys : getSystemMsg today cfg with
  | none => simp [assembleRequestMessages, hsys, pickGptInputMessage, gptTextMessage]
  | some sysp => simp [assembleRequestMessages, hsys, pickGptInputMessage, gptTextMessage]

/-! ## Claim theorems -/

theorem c7_build_function_signature (t : PyTool)
    (hnd : (t.runParams.map PyParam.name).Nodup) :
    (∀ s, t.args_schema = some s →
      build_function_signature t = .ok
        { type := "function"
          function :=
            { name := t.name, description := t.description
              parameters :=
                { type := "object", properties := s.properties, required := s.required } } })
    ∧ (t.args_schema = none →
        (∃ p ∈ t.runParams, TYPE_MAP p.annot = none) →
        ∃ e, build_function_signature t = .error e)
    ∧ (t.args_schema = none →
        ∀ sig, build_function_signature t = .ok sig →
        ∀ p ∈ t.runParams,
          (p.hasDefault = false ↔ p.name ∈ sig.function.parameters.required)) := by
  refine ⟨?_, ?_, ?_⟩
  · intro s hs
    simp [build_function_signature, hs]
  · intro hnone hex
    rcases buildIntrospectedParams_error hex with ⟨e, he⟩
    refine ⟨e, ?_⟩
    simp [build_function_signature, hnone, he]
  · intro hnone sig hsig p hp
    cases hbuild : buildIntrospectedParams t.runParams with
    | error e => simp [build_function_signature, hnone, hbuild] at hsig
    | ok pr =>
      obtain ⟨props, req⟩ := pr
      have hreq := buildIntrospectedParams_ok hbuild
      simp [build_function_signature, hnone, hbuild] at hsig
      rw [← hsig]
      simpa [hreq] using (name_mem_filter_map hnd hp).symm

theorem c7_build_function_signature_witness :
    "q" ∈ searchSig.function.parameters.required ∧
    "limit" ∉ searchSig.function.parameters.required := by
  have hnd : (searchTool.runParams.map PyParam.name).Nodup := by decide
  have h := c7_build_function_signature searchTool hnd
  have hq := (h.2.2 rfl searchSig rfl
    { name := "q", annot := .str, hasDefault := false } (by decide)).1 rfl
  have hl := (h.2.2 rfl searchSig rfl
    { name := "limit", annot := .int, hasDefault := true } (by decide)).2
  exact ⟨hq, fun hmem => absurd (hl hmem) (by decide)⟩


theorem c9_config_extra_fields (ks : List String) :
    ((∃ k ∈ ks, k ∉ baseConfigFields) →
      ∃ k, k ∈ ks ∧ k ∉ baseConfigFields ∧
        validateConfigKeys ks = .error ("Extra inputs are not permitted: " ++ k))
    ∧ ((∀ k ∈ ks, k ∈ baseConfigFields) → validateConfigKeys ks = .ok ()) := by
  constructor
  · intro hex
    have hsome : (ks.find? (fun k => !(baseConfigFields.contains k))).isSome := by
      rw [List.find?_isSome]
      rcases hex with ⟨k, hk, hnk⟩
      exact ⟨k, hk, by simpa using hnk⟩
    rcases Option.isSome_iff_exists.1 hsome with ⟨k, hk⟩
    refine ⟨k, List.mem_of_find?_eq_some hk, ?_, ?_⟩
    · have := List.find?_some hk
      simpa using this
    · unfold validateConfigKeys
      rw [hk]
  · intro hall
    have hnone : ks.find? (fun k => !(baseConfigFields.contains k)) = none := by
      rw [List.find?_eq_none]
      intro x hx
      simpa using hall x hx
    unfold validateConfigKeys
    rw [hnone]

theorem c9_config_extra_fields_witness :
    validateConfigKeys ["model_name", "stream"] = .ok () ∧
    validateConfigKeys ["model_mame"] = .error "Extra inputs are not permitted: model_mame" := by
  constructor
  · exact (c9_config_extra_fields _).2 (by decide)
  · rcases (c9_config_extra_fields ["model_mame"]).1 ⟨"model_mame", by decide, by decide⟩
      with ⟨k, hk, _, heq⟩
    have hkk : k = "model_mame" := by simpa using hk
    rw [hkk] at heq
    exact heq


theorem c10_chat_kwargs_format :
    (∀ u, chatFormatUserInput [] u = .ok u)
    ∧ (∀ (kwargs : List (String × String)) (pre suf k : List Char) (v : String),
        kwargs ≠ [] → BraceFree pre → BraceFree suf → BraceFree k →
        kwargs.lookup (String.mk k) = some v →
        chatFormatUserInput kwargs (String.mk (pre ++ lbrace :: (k ++ rbrace :: suf))) =
          .ok (String.mk (pre ++ v.data ++ suf)))
    ∧ (∀ (kwargs : List (String × String)) (pre suf k : List Char),
        kwargs ≠ [] → BraceFree pre → BraceFree k →
        kwargs.lookup (String.mk k) = none →
        chatFormatUserInput kwargs (String.mk (pre ++ lbrace :: (k ++ rbrace :: suf))) =
          .error ("KeyError: " ++ String.mk k))
    ∧ (∀ today cfg tools st u kwargs rc script e,
        chatFormatUserInput kwargs u = .error e →
        (gptChat today cfg tools st u kwargs rc script).requests = 0 ∧
        (gptChat today cfg tools st u kwargs rc script).result = .error e) := by
  refine ⟨?_, ?_, ?_, ?_⟩
  · intro u
    simp [chatFormatUserInput]
  · intro kwargs pre suf k v hne hpre hsuf hk hv
    have hkempty : kwargs.isEmpty = false := by
      cases kwargs with
      | nil => exact absurd rfl hne
      | cons a l => rfl
    simp only [chatFormatUserInput, hkempty, Bool.false_eq_true, if_false, pyFormat,
      string_mk_data]
    rw [pyFormatAux_copy kwargs _ hpre, pyFormatAux_placeholder kwargs _ hk, hv,
      pyFormatAux_bracefree kwargs hsuf]
    simp [List.append_assoc]
  · intro kwargs pre suf k hne hpre hk hv
    have hkempty : kwargs.isEmpty = false := by
      cases kwargs with
      | nil => exact absurd rfl hne
      | cons a l => rfl
    simp only [chatFormatUserInput, hkempty, Bool.false_eq_true, if_false, pyFormat,
      string_mk_data]
    rw [pyFormatAux_copy kwargs _ hpre, pyFormatAux_placeholder kwargs _ hk, hv]
    simp
  · intro today cfg tools st u kwargs rc script e h
    constructor <;> simp [gptChat, h]

theorem c10_chat_kwargs_format_witness :
    chatFormatUserInput [] "keep \x7bthis\x7d" = .ok "keep \x7bthis\x7d" ∧
    chatFormatUserInput [("name", "Bob")]
        (String.mk ("hi ".data ++ lbrace :: ("name".data ++ rbrace :: "!".data))) =
      .ok (String.mk ("hi ".data ++ "Bob".data ++ "!".data)) ∧
    (gptChat "d" cfg0 []
        (initialState GptRequestMessage)
        (String.mk ("x ".data ++ lbrace :: ("missing".data ++ rbrace :: [])))
        [("name", "Bob")] false []).requests = 0 := by
  refine ⟨c10_chat_kwargs_format.1 _, ?_, ?_⟩
  · exact c10_chat_kwargs_format.2.1 [("name", "Bob")] "hi ".data "!".data "name".data "Bob"
      (by decide) (by decide) (by decide) (by decide) rfl
  · have he := c10_chat_kwargs_format.2.2.1 [("name", "Bob")] "x ".data [] "missing".data
      (by decide) (by decide) (by decide) rfl
    exact (c10_chat_kwargs_format.2.2.2 "d" cfg0 []
      (initialState GptRequestMessage) _ [("name", "Bob")] false [] _ he).1


theorem openaiApiRequest_allRateLimited (server : Nat → Nat × String)
    (h : ∀ i, (server i).1 = 429) (k r : Nat) :
    openaiApiRequest server k r =
      (.error ("OpenAI API request failed with status code " ++ toString 429 ++
        " " ++ (server (k + r)).2),
       (List.range r).map (fun (j : Nat) => ((j : Int) + 4 - (r : Int)) * 10)) := by
  induction r generalizing k with
  | zero =>
    simp [openaiApiRequest, h k]
  | succ r ih =>
    have hk : k + 1 + r = k + (r + 1) := by omega
    rw [openaiApiRequest]
    simp only [h k, if_neg (show ¬((429 : Nat) = 200) by decide), eq_self_iff_true,
      if_true, ih (k + 1), hk]
    rw [Prod.mk.injEq]
    refine ⟨rfl, ?_⟩
    rw [List.range_succ_eq_map, List.map_cons, List.map_map, List.cons.injEq]
    constructor
    · push_cast
      ring
    · apply List.map_congr_left
      intro j hj
      simp only [Function.comp_apply]
      push_cast
      ring

theorem anthropicApiRequest_allRateLimited (server : Nat → Nat × String)
    (h : ∀ i, (server i).1 = 429) (k r : Nat) :
    anthropicApiRequest server k r =
      (.error ("Anthropic API request failed with status code " ++ toString 429 ++
        " " ++ (server (k + r)).2),
       (List.range r).map (fun (j : Nat) => ((j : Int) + 4 - (r : Int)) * 10)) := by
  induction r generalizing k with
  | zero =>
    simp [anthropicApiRequest, h k]
  | succ r ih =>
    have hk : k + 1 + r = k + (r + 1) := by omega
    rw [anthropicApiRequest]
    simp only [h k, if_neg (show ¬((429 : Nat) = 200) by decide), eq_self_iff_true,
      if_true, ih (k + 1), hk]
    rw [Prod.mk.injEq]
    refine ⟨rfl, ?_⟩
    rw [List.range_succ_eq_map, List.map_cons, List.map_map, List.cons.injEq]
    constructor
    · push_cast
      ring
    · apply List.map_congr_left
      intro j hj
      simp only [Function.comp_apply]
      push_cast
      ring

/-- C8: a 429 response is retried with linearly increasing backoff delays
while the retry budget is positive; a non-429 non-200 response, or a 429
once the budget is exhausted, raises a transport error carrying the HTTP
status code and the response body, with no retry for non-429 statuses;
a 200 returns immediately.  Holds for the OpenAI-style and Anthropic-style
clients. -/
theorem c8_api_request_retry :
    (∀ (server : Nat → Nat × String) (k r : Nat) (body : String),
        server k = (200, body) → openaiApiRequest server k r = (.ok body, []))
    ∧ (∀ (server : Nat → Nat × String) (k r : Nat),
        (∀ i, (server i).1 = 429) →
        openaiApiRequest server k r =
          (.error ("OpenAI API request failed with status code " ++ toString 429 ++
            " " ++ (server (k + r)).2),
           (List.range r).map (fun (j : Nat) => ((j : Int) + 4 - (r : Int)) * 10)))
    ∧ (∀ (server : Nat → Nat × String) (k r s : Nat) (body : String),
        server k = (s, body) → s ≠ 200 → s ≠ 429 →
        openaiApiRequest server k r =
          (.error ("OpenAI API request failed with status code " ++ toString s ++
            " " ++ body), []))
    ∧ (∀ (server : Nat → Nat × String) (k r : Nat),
        (∀ i, (server i).1 = 429) →
        anthropicApiRequest server k r =
          (.error ("Anthropic API request failed with status code " ++ toString 429 ++
            " " ++ (server (k + r)).2),
           (List.range r).map (fun (j : Nat) => ((j : Int) + 4 - (r : Int)) * 10)))
    ∧ (∀ (server : Nat → Nat × String) (k r s : Nat) (body : String),
        server k = (s, body) → s ≠ 200 → s ≠ 429 →
        anthropicApiRequest server k r =
          (.error ("Anthropic API request failed with status code " ++ toString s ++
            " " ++ body), [])) := by
  refine ⟨?_, fun server k r h => openaiApiRequest_allRateLimited server h k r, ?_,
    fun server k r h => anthropicApiRequest_allRateLimited server h k r, ?_⟩
  · intro server k r body hs
    cases r <;> simp [openaiApiRequest, hs]
  · intro server k r s body hs h200 h429
    cases r <;> simp [openaiApiRequest, hs, h200, h429]
  · intro server k r s body hs h200 h429
    cases r <;> simp [anthropicApiRequest, hs, h200, h429]

/-- Witness for C8: three 429 responses exhaust the default budget of 3 with
delays 10, 20, 30 seconds; a 500 fails immediately with no delay. -/
theorem c8_api_request_retry_witness :
    openaiApiRequest (fun _ => (429, "rate limited")) 0 3 =
      (.error ("OpenAI API request failed with status code " ++ toString 429 ++
        " rate limited"), [10, 20, 30]) ∧
    openaiApiRequest (fun _ => (500, "boom")) 0 3 =
      (.error ("OpenAI API request failed with status code " ++ toString 500 ++
        " boom"), []) := by
  constructor
  · have h := c8_api_request_retry.2.1 (fun _ => (429, "rate limited")) 0 3 (fun _ => rfl)
    rw [h]
    rfl
  · have h := c8_api_request_retry.2.2.1 (fun _ => (500, "boom")) 0 3 500 "boom" rfl
      (by decide) (by decide)
    rw [h]
    rfl


/-- C1 counterexample: with a provider script of two consecutive tool-call
responses followed by a text response, a single `_process_chat` run issues
three provider requests — more than the two the claim allows — and still
returns the final response. -/
theorem c1_single_round_counterexample :
    2 < (gptProcessChat [echoTool] [] [tcResp, tcResp, txtResp]).2 ∧
    (gptProcessChat [echoTool] [] [tcResp, tcResp, txtResp]).1 = .ok txtResp := by
  constructor
  · decide
  · rfl

/-- C1 (amended): a chat round repeats the invoke step once per consecutive
tool-call response, recursing until a response without tool calls arrives:
with k leading tool-call responses the call issues exactly k + 1 provider
requests — there is no bound of two.  Holds for the OpenAI-style
`_process_chat` and the Anthropic-style `_client_chat`. -/
theorem c1_tool_rounds (tools : List RTool) :
    (∀ (messages : List (Option GptRequestMessage)) (toolResps : List GptChatResponse)
        (final : GptChatResponse) (rest : List GptChatResponse),
        (∀ r ∈ toolResps, gptToolRoundOk tools r = true) →
        hasToolCalls final = false →
        gptProcessChat tools messages (toolResps ++ final :: rest) =
          (.ok final, toolResps.length + 1))
    ∧ (∀ (messages : List (Option ClaudeMessage)) (toolRaws : List ClaudeRaw)
        (finalRaw : ClaudeRaw) (rest : List ClaudeRaw),
        (∀ raw ∈ toolRaws, claudeToolRoundOk tools raw = true) →
        claudeNoToolRound tools finalRaw = true →
        ∃ resp, claudeClientChat tools messages none (toolRaws ++ finalRaw :: rest) =
          (.ok resp, toolRaws.length + 1)) := by
  constructor
  · intro messages toolResps final rest htools hfinal
    induction toolResps generalizing messages with
    | nil =>
      simpa using @gptProcessChat_final tools messages final rest hfinal
    | cons r toolResps ih =>
      have hr := htools r (List.mem_cons_self r toolResps)
      cases htc : r.message.tool_calls with
      | none => simp [gptToolRoundOk, htc] at hr
      | some l =>
        cases l with
        | nil => simp [gptToolRoundOk, htc] at hr
        | cons c cs =>
          simp only [gptToolRoundOk, htc] at hr
          cases hexec : gptExecuteToolCalls tools (c :: cs) with
          | error e => simp [hexec, isOkB] at hr
          | ok results =>
            have ih' := ih (messages ++ [some (.msg r.message)] ++
              results.map (fun t => some (GptRequestMessage.toolUseResult
                t.tool_call_id t.name t.content)))
              (fun r hr => htools r (List.mem_cons_of_mem _ hr))
            rw [List.cons_append, gptProcessChat]
            simp only [htc, hexec, ih']
            simp [List.length_cons]
  · intro messages toolRaws finalRaw rest htools hfinal
    induction toolRaws generalizing messages with
    | nil =>
      cases hasm : assembleClaudeChatResponse finalRaw with
      | error e => simp [claudeNoToolRound, hasm] at hfinal
      | ok resp =>
        simp only [claudeNoToolRound, hasm] at hfinal
        cases hexec : claudeExecuteTools tools resp.message.content with
        | error e => simp [hexec] at hfinal
        | ok results =>
          cases results with
          | cons x xs => simp [hexec] at hfinal
          | nil =>
            refine ⟨resp, ?_⟩
            rw [List.nil_append, claudeClientChat_cons_none, hasm]
            simp [hexec]
    | cons raw toolRaws ih =>
      have hr := htools raw (List.mem_cons_self raw toolRaws)
      cases hasm : assembleClaudeChatResponse raw with
      | error e => simp [claudeToolRoundOk, hasm] at hr
      | ok resp =>
        simp only [claudeToolRoundOk, hasm] at hr
        cases hexec : claudeExecuteTools tools resp.message.content with
        | error e => simp [hexec] at hr
        | ok results =>
          cases results with
          | nil => simp [hexec] at hr
          | cons x xs =>
            obtain ⟨fresp, hrec⟩ := ih (messages ++
              [some resp.message, some { role := .user, content := x :: xs }])
              (fun r hr => htools r (List.mem_cons_of_mem _ hr))
            refine ⟨fresp, ?_⟩
            rw [List.cons_append, claudeClientChat_cons_none, hasm]
            simp [hexec, hrec]

/-- Witness for C1 (amended): one tool round followed by a text response
issues exactly two provider requests. -/
theorem c1_tool_rounds_witness :
    gptProcessChat [echoTool] [] [tcResp, txtResp] = (.ok txtResp, 2) := by
  have h := (c1_tool_rounds [echoTool]).1 [] [tcResp] txtResp [] (by decide) (by decide)
  simpa using h

/-- C2 counterexample: in the Anthropic-style agent a tool exception is not
caught — a chat call whose response requests the `boom` tool raises `boom`
to the caller, and no finish-chat event fires. -/
theorem c2_claude_tool_exception_propagates :
    (claudeChat cfg0 [boomTool] (initialState ClaudeMessage) "run" [] true
        [claudeRawBoom]).result = .error "boom" ∧
    (claudeChat cfg0 [boomTool] (initialState ClaudeMessage) "run" [] true
        [claudeRawBoom]).finishEvents = 0 := by
  constructor
  · rfl
  · rfl

/-- C2 (amended): a tool exception is caught and converted into an
`"Error: ..."` tool result for the agents that execute tools through
`BaseAgent.run_tool` — the OpenAI-style and Gemini-style agents — while the
Anthropic-style agent calls `tool.run` directly and the exception
propagates. -/
theorem c2_tool_error_handling :
    (∀ (tools : List RTool) (name : String) (args : ArgsDict) (t : RTool) (e : String),
        lookupTool tools name = some t → t.run args = .error e →
        run_tool tools name args = .ok ("Error: " ++ e))
    ∧ (∀ (tools : List RTool) (c : ToolUseContent) (cs : List ToolUseContent)
        (d : ArgsDict) (t : RTool) (e : String),
        jsonLoads c.function.arguments = some d →
        lookupTool tools c.function.name = some t →
        t.run d = .error e →
        gptExecuteToolCalls tools (c :: cs) =
          (gptExecuteToolCalls tools cs).map
            (fun rest => { tool_call_id := c.id, name := c.function.name
                           content := "Error: " ++ e } :: rest))
    ∧ (∀ (tools : List RTool) (c : ToolUseContent) (cs : List ContentBlock)
        (d : ArgsDict) (t : RTool) (e : String),
        jsonLoads c.function.arguments = some d →
        lookupTool tools c.function.name = some t →
        t.run d = .error e →
        geminiExecuteToolCalls tools (.toolUse c :: cs) =
          (geminiExecuteToolCalls tools cs).map
            (fun rest => { tool_call_id := c.id, name := c.function.name
                           content := "Error: " ++ e } :: rest))
    ∧ (∀ (tools : List RTool) (id name : String) (input : ArgsDict)
        (cs : List ClaudeContent) (t : RTool) (e : String),
        lookupTool tools name = some t → t.run input = .error e →
        claudeExecuteTools tools (.toolUse id name input :: cs) = .error e) := by
  refine ⟨?_, ?_, ?_, ?_⟩
  · intro tools name args t e hl hr
    simp [run_tool, hl, hr]
  · intro tools c cs d t e hj hl hr
    simp [gptExecuteToolCalls, hj, run_tool, hl, hr]
  · intro tools c cs d t e hj hl hr
    simp [geminiExecuteToolCalls, hj, run_tool, hl, hr]
  · intro tools id name input cs t e hl hr
    simp [claudeExecuteTools, hl, hr]

/-- Witness for C2 (amended): `run_tool` converts a raised `boom` into the
string result, while the Anthropic-side executor propagates it. -/
theorem c2_tool_error_handling_witness :
    run_tool [boomTool] "boom" [] = .ok "Error: boom" ∧
    claudeExecuteTools [boomTool] [.toolUse "tu1" "boom" []] = .error "boom" := by
  constructor
  · exact c2_tool_error_handling.1 [boomTool] "boom" [] boomTool "boom" rfl rfl
  · exact c2_tool_error_handling.2.2.2 [boomTool] "tu1" "boom" [] [] boomTool "boom" rfl rfl


/-- C3 counterexample: with `enable_history = false`, a completed chat call
still appends the round's input and output messages to the history list —
the finish-chat closure has no `enable_history` check. -/
theorem c3_history_disabled_counterexample :
    cfg0.enable_history = false ∧
    (gptChat "d" cfg0 [] (initialState GptRequestMessage) "u1" [] false
        [txtResp]).state.history =
      [some (.msg (gptTextMessage .user "u1")), some (.msg txtResp.message)] := by
  constructor
  · rfl
  · rfl

/-- C3 (amended): after every completed chat round — regardless of
`enable_history` — the finish-chat closure appends the round's recorded
input message and output message to the history together; a call that ends
before the finish-chat publish leaves the agent state unchanged.
(`enable_history` gates only whether request assembly reads the history and
whether the manual `add_*_history` helpers append.) -/
theorem c3_history_append (today : String) (cfg : ConfigModel) (tools : List RTool)
    (st : AgentState GptRequestMessage) (u : String) (kwargs : List (String × String))
    (rc : Bool) (script : List GptChatResponse) :
    (∀ v, (gptChat today cfg tools st u kwargs rc script).result = .ok v →
      ∃ resp : GptChatResponse,
        (gptChat today cfg tools st u kwargs rc script).state.history =
          st.history ++ [resp.input_message, some (.msg resp.message)]
        ∧ (gptChat today cfg tools st u kwargs rc script).finishEvents = 1)
    ∧ (∀ e, (gptChat today cfg tools st u kwargs rc script).result = .error e →
        (gptChat today cfg tools st u kwargs rc script).finishEvents = 0 →
        (gptChat today cfg tools st u kwargs rc script).state = st) := by
  cases hfmt : chatFormatUserInput kwargs u with
  | error e0 =>
    constructor
    · intro v hv
      simp [gptChat, hfmt] at hv
    · intro e he hf
      simp [gptChat, hfmt]
  | ok input =>
    rcases hpr : gptProcessChat tools (assembleRequestMessages today cfg st.history
      [GptRequestMessage.msg (gptTextMessage .user input)]) script with ⟨res, n⟩
    cases res with
    | error e0 =>
      constructor
      · intro v hv
        simp [gptChat, hfmt, hpr] at hv
      · intro e he hf
        simp [gptChat, hfmt, hpr]
    | ok resp =>
      constructor
      · intro v hv
        refine ⟨{ resp with input_message := pickGptInputMessage (assembleRequestMessages today cfg st.history [GptRequestMessage.msg (gptTextMessage .user input)]) }, ?_, ?_⟩
        · cases rc with
          | true => simp [gptChat, hfmt, hpr, onFinishChatGpt]
          | false =>
            cases hft : gptFirstText resp.message with
            | some t => simp [gptChat, hfmt, hpr, hft, onFinishChatGpt]
            | none => simp [gptChat, hfmt, hpr, hft] at hv
        · cases rc with
          | true => simp [gptChat, hfmt, hpr]
          | false =>
            cases hft : gptFirstText resp.message with
            | some t => simp [gptChat, hfmt, hpr, hft]
            | none => simp [gptChat, hfmt, hpr, hft] at hv
      · intro e he hf
        cases rc with
        | true => simp [gptChat, hfmt, hpr] at he
        | false =>
          cases hft : gptFirstText resp.message with
          | some t => simp [gptChat, hfmt, hpr, hft] at he
          | none => simp [gptChat, hfmt, hpr, hft] at hf

/-- Witness for C3 (amended): the concrete call from the counterexample —
history disabled — publishes exactly one finish event and appends the two
messages together. -/
theorem c3_history_append_witness :
    (gptChat "d" cfg0 [] (initialState GptRequestMessage) "u1" [] false
        [txtResp]).finishEvents = 1 := by
  obtain ⟨resp, hh, hf⟩ := (c3_history_append "d" cfg0 []
    (initialState GptRequestMessage) "u1" [] false [txtResp]).1 (.text "done") rfl
  exact hf

/-- C4 evaluated at the failing input (code bug): a Claude chat call with
`return_complex = true` publishes the finish-chat event twice — `_chat`
publishes once itself and `BaseAgent.chat` publishes again — doubling the
round's usage counts (3, 5) into (6, 10); with the default
`return_complex = false` the second publish evaluates `response.usage` on
the returned string and the call raises after the first publish.  The
OpenAI-style agent publishes exactly once and adds the usage once. -/
theorem c4_claude_double_finish_publish :
    claudeRawText.input_tokens = 3 ∧ claudeRawText.output_tokens = 5 ∧
    (claudeChat cfg0 [] (initialState ClaudeMessage) "hi" [] true
        [claudeRawText]).finishEvents = 2 ∧
    (claudeChat cfg0 [] (initialState ClaudeMessage) "hi" [] true
        [claudeRawText]).state.token_usage = { prompt := 6, completion := 10 } ∧
    (claudeChat cfg0 [] (initialState ClaudeMessage) "hi" [] false
        [claudeRawText]).result =
      .error "AttributeError: str object has no attribute usage" ∧
    (claudeChat cfg0 [] (initialState ClaudeMessage) "hi" [] false
        [claudeRawText]).finishEvents = 1 ∧
    txtResp.usage = { prompt := 7, completion := 2 } ∧
    (gptChat "d" cfg0 [] (initialState GptRequestMessage) "u" [] false
        [txtResp]).finishEvents = 1 ∧
    (gptChat "d" cfg0 [] (initialState GptRequestMessage) "u" [] false
        [txtResp]).state.token_usage = { prompt := 7, completion := 2 } := by
  refine ⟨rfl, rfl, rfl, rfl, rfl, rfl, rfl, rfl, rfl⟩


/-- C5 counterexample: with `prefill_response = "\x7b"` the Anthropic
stream handler prepends the prefill to the reassembled first text block but
publishes only the raw deltas, so the concatenation of the emitted tokens
is not the final text of the reassembled response. -/
theorem c5_prefill_counterexample :
    claudeHandleStream (some "\x7b") c5Events =
      .ok ⟨some ⟨"i", "m", "assistant", [.text "\x7b\"a\": 1\x7d"], 3, 9⟩, none,
        ["\"a\": 1\x7d"]⟩ ∧
    concatTokens ["\"a\": 1\x7d"] ≠ "\x7b\"a\": 1\x7d" := by
  constructor
  · rfl
  · decide

/-- C5 (amended): the concatenation, in emission order, of the tokens
published during streaming equals the final reassembled text for the
OpenAI-style handler and for the Anthropic-style handler without a truthy
prefill, and equals the text of the equivalent non-streaming response; in
the Anthropic `prefill_response` case the reassembled text is the prefill
followed by the concatenation of the emitted tokens — the prefill itself is
never emitted as a token. -/
theorem c5_stream_token_concatenation :
    (∀ (evs : List GptStreamEvent) (st : GptStreamState),
        gptHandleStream evs = .ok st →
        concatTokens st.emitted = gptStreamFinalText st)
    ∧ (∀ (role : Role) (s : String),
        gptFirstText (parseOpenaiTextMessage role s) = some s)
    ∧ (∀ (prefill : Option String) (id model role : String) (tin tout tout2 : Nat)
        (d : String) (ds : List String),
        optStrTruthy prefill = false →
        claudeHandleStream prefill (claudeTextStream id model role tin tout tout2 (d :: ds)) =
          .ok ⟨some ⟨id, model, role, [.text (concatTokens (d :: ds))], tin, tout2⟩,
            none, d :: ds⟩)
    ∧ (∀ (p id model role : String) (tin tout tout2 : Nat) (d : String)
        (ds : List String), p ≠ "" →
        claudeHandleStream (some p) (claudeTextStream id model role tin tout tout2 (d :: ds)) =
          .ok ⟨some ⟨id, model, role, [.text (p ++ concatTokens (d :: ds))], tin, tout2⟩,
            none, d :: ds⟩)
    ∧ (∀ (s m : String) (tin tout : Nat),
        assembleClaudeChatResponse ⟨[.text s], m, tin, tout⟩ =
          .ok ⟨⟨.assistant, [.text s]⟩, ⟨tin, tout⟩, m, "completed", none⟩) := by
  refine ⟨?_, ?_, ?_, ?_, ?_⟩
  · intro evs st h
    exact gptHandleStream_foldl_inv evs gptStreamInit st rfl h
  · intro role s
    rfl
  · intro prefill id model role tin tout tout2 d ds hp
    have h := claudeHandleStream_textStream prefill id model role tin tout tout2 d ds
    rw [hp] at h
    simpa [String.empty_append] using h
  · intro p id model role tin tout tout2 d ds hp
    have h := claudeHandleStream_textStream (some p) id model role tin tout tout2 d ds
    have ht : optStrTruthy (some p) = true := by
      simp [optStrTruthy, string_isEmpty_false hp]
    rw [ht] at h
    simpa using h
  · intro s m tin tout
    rfl

/-- Witness for C5 (amended): on the concrete two-delta OpenAI stream the
emitted tokens concatenate to the reassembled text `Hello`. -/
theorem c5_stream_token_concatenation_witness :
    concatTokens c5GptFinal.emitted = gptStreamFinalText c5GptFinal :=
  c5_stream_token_concatenation.1 c5GptEvents c5GptFinal rfl


/-- C6: with history disabled, the second of two sequential chat calls
assembles a request holding only the optional system message and its own
user turn; with history enabled on a fresh agent, the second call's request
is the optional system message, then the first call's input message and
output message in that order, then the second call's user turn. -/
theorem c6_history_request_assembly (today : String) (cfg : ConfigModel)
    (tools : List RTool) (u1 u2 : String) (rc1 rc2 : Bool)
    (script1 script2 : List GptChatResponse) :
    (cfg.enable_history = false →
      (gptChat today cfg tools
          (gptChat today cfg tools (initialState GptRequestMessage) u1 [] rc1 script1).state
          u2 [] rc2 script2).assembled =
        (match getSystemMsg today cfg with
          | some s => [some (.msg (gptTextMessage .system s))]
          | none => []) ++ [some (.msg (gptTextMessage .user u2))])
    ∧ (cfg.enable_history = true → ∀ v,
        (gptChat today cfg tools (initialState GptRequestMessage) u1 [] rc1 script1).result
          = .ok v →
        ∃ resp1 : GptChatResponse,
          (gptChat today cfg tools (initialState GptRequestMessage) u1 [] rc1
            script1).state.history =
            [some (.msg (gptTextMessage .user u1)), some (.msg resp1.message)] ∧
          (gptChat today cfg tools
              (gptChat today cfg tools (initialState GptRequestMessage) u1 [] rc1 script1).state
              u2 [] rc2 script2).assembled =
            (match getSystemMsg today cfg with
              | some s => [some (.msg (gptTextMessage .system s))]
              | none => []) ++
            [some (.msg (gptTextMessage .user u1)), some (.msg resp1.message),
             some (.msg (gptTextMessage .user u2))]) := by
  constructor
  · intro hh
    rw [gptChat_assembled]
    cases hsys : getSystemMsg today cfg <;>
      simp [assembleRequestMessages, hsys, hh]
  · intro hh v hv
    obtain ⟨resp, n, hpr, hstate⟩ := gptChat_ok_state today cfg tools
      (initialState GptRequestMessage) u1 rc1 script1 v hv
    refine ⟨{ resp with input_message := pickGptInputMessage (assembleRequestMessages today cfg [] [GptRequestMessage.msg (gptTextMessage .user u1)]) }, ?_, ?_⟩
    · rw [hstate]
      cases hsys : getSystemMsg today cfg <;>
        simp [onFinishChatGpt, initialState, assembleRequestMessages, hsys,
          pickGptInputMessage, gptTextMessage]
    · rw [gptChat_assembled, hstate]
      cases hsys : getSystemMsg today cfg <;>
        simp [assembleRequestMessages, hsys, hh, onFinishChatGpt, initialState,
          pickGptInputMessage, gptTextMessage]

/-- Witness for C6: on a concrete history-disabled agent the second call's
assembled request is exactly the system message and its own user turn. -/
theorem c6_history_request_assembly_witness :
    (gptChat "d" cfg0 []
        (gptChat "d" cfg0 [] (initialState GptRequestMessage) "u1" [] false [txtResp]).state
        "u2" [] false [txtResp]).assembled =
      [some (.msg (gptTextMessage .system "You are a helpful assistant")),
       some (.msg (gptTextMessage .user "u2"))] := by
  have h := (c6_history_request_assembly "d" cfg0 [] "u1" "u2" false false
    [txtResp] [txtResp]).1 rfl
  simpa [show getSystemMsg "d" cfg0 = some "You are a helpful assistant" from rfl] using h

end Tinyagent
